import Mathlib

/-!
Verification of the offline-first synchronization engine of a point-of-sale
application (source: `src/services/sync.ts`, with the database schema from
`src/database/schema.ts`).  The development shallowly embeds the network
listener, the operation queue, the four per-entity drains, the full sync
cycle and the initial bulk-sync bill insertion, and proves the specified
properties about them.
-/

namespace TrenzPos

/-! ## Network monitor (initNetworkListener, sync.ts lines 536-591)

The NetInfo event listener is modelled as a step function on the module-level
mutable state `(isOnline, offlineTimestamp, syncTimeout)`.  Timer bookkeeping
(`setTimeout` / `clearTimeout`) is made explicit: each processed event is
given a fresh timer id, and the step reports which timer id it cancelled and
which it newly scheduled (with its delay in milliseconds). -/

/-- Offline duration threshold (ms) below which an offline interval is treated
as a network flap; sync.ts line 558. -/
def OFFLINE_THRESHOLD : Nat := 3000

/-- Stabilization delay (ms) between a qualifying online transition and the
scheduled `syncAll` callback; sync.ts line 583. -/
def STABILIZATION_DELAY : Nat := 2000

/-- Module-level mutable state read and written by the NetInfo listener. -/
structure ListenerState where
  isOnline : Bool
  offlineTimestamp : Option Nat
  syncTimeout : Option Nat
deriving DecidableEq

/-- Timer effects of processing one NetInfo event: the timer id passed to
`clearTimeout` (if any) and the newly scheduled `(timerId, delay)` (if any). -/
structure NetEffect where
  cancelled : Option Nat
  scheduled : Option (Nat × Nat)
deriving DecidableEq

/-- One step of the NetInfo event callback registered by `initNetworkListener`
(sync.ts lines 537-590).  `connected` is `state.isConnected ?? false`, `now`
is `Date.now()`, and `freshId` is the id `setTimeout` would assign. -/
def initNetworkListenerStep (s : ListenerState) (connected : Bool) (now : Nat)
    (freshId : Nat) : ListenerState × NetEffect :=
  let wasOffline := !s.isOnline
  let isOnline := connected
  -- lines 545-548: track when we go offline
  let offlineTimestamp :=
    if !isOnline && wasOffline = false then some now else s.offlineTimestamp
  -- lines 551-589: auto-sync on offline -> online transition
  if wasOffline && isOnline then
    let offlineDuration :=
      match offlineTimestamp with
      | some t => now - t
      | none => 0
    if offlineDuration > OFFLINE_THRESHOLD then
      ({ isOnline := isOnline, offlineTimestamp := offlineTimestamp,
         syncTimeout := some freshId },
       { cancelled := s.syncTimeout, scheduled := some (freshId, STABILIZATION_DELAY) })
    else
      -- lines 584-588: suppressed flap; offlineTimestamp cleared, nothing scheduled
      ({ isOnline := isOnline, offlineTimestamp := none, syncTimeout := s.syncTimeout },
       { cancelled := none, scheduled := none })
  else
    ({ isOnline := isOnline, offlineTimestamp := offlineTimestamp,
       syncTimeout := s.syncTimeout },
     { cancelled := none, scheduled := none })

/-- Process a sequence of NetInfo events, threading the listener state and a
fresh-timer-id counter, collecting the effects of every step. -/
def runNetEvents (s : ListenerState) (events : List (Bool × Nat)) (nextId : Nat) :
    ListenerState × List NetEffect :=
  match events with
  | [] => (s, [])
  | (c, t) :: rest =>
    let step := initNetworkListenerStep s c t nextId
    let out := runNetEvents step.1 rest (nextId + 1)
    (out.1, step.2 :: out.2)

/-- Timer ids scheduled over a run. -/
def scheduledIds (effects : List NetEffect) : List Nat :=
  effects.filterMap (fun e => e.scheduled.map Prod.fst)

/-- Timer ids cancelled over a run. -/
def cancelledIds (effects : List NetEffect) : List Nat :=
  effects.filterMap (fun e => e.cancelled)

/-- Scheduled callbacks that were never cancelled: these are the sync callbacks
that will actually fire. -/
def survivingCallbacks (effects : List NetEffect) : List Nat :=
  (scheduledIds effects).filter (fun i => !(cancelledIds effects).contains i)

/-- A NetInfo event reporting `connected = false` while already offline changes
nothing and has no timer effects. -/
theorem step_offline_noop (ts tm : Option Nat) (t i : Nat) :
    initNetworkListenerStep ⟨false, ts, tm⟩ false t i
      = (⟨false, ts, tm⟩, { cancelled := none, scheduled := none }) := by
  simp [initNetworkListenerStep]

/-- Going offline from an online state records `offlineTimestamp = now`,
schedules nothing and cancels nothing. -/
theorem step_go_offline (ts tm : Option Nat) (t i : Nat) :
    initNetworkListenerStep ⟨true, ts, tm⟩ false t i
      = (⟨false, some t, tm⟩, { cancelled := none, scheduled := none }) := by
  simp [initNetworkListenerStep]

/-- Coming back online after an offline interval of at most `OFFLINE_THRESHOLD`
milliseconds is suppressed: `offlineTimestamp` is cleared and no sync callback
is scheduled. -/
theorem step_online_short (t0 : Nat) (tm : Option Nat) (t1 i : Nat)
    (hshort : t1 - t0 ≤ OFFLINE_THRESHOLD) :
    initNetworkListenerStep ⟨false, some t0, tm⟩ true t1 i
      = (⟨true, none, tm⟩, { cancelled := none, scheduled := none }) := by
  simp [initNetworkListenerStep, Nat.not_lt.mpr hshort]

/-- Coming back online after an offline interval exceeding `OFFLINE_THRESHOLD`
milliseconds cancels any pending sync timer and schedules a fresh callback
after `STABILIZATION_DELAY` milliseconds. -/
theorem step_online_long (t0 : Nat) (tm : Option Nat) (t1 i : Nat)
    (hlong : t1 - t0 > OFFLINE_THRESHOLD) :
    initNetworkListenerStep ⟨false, some t0, tm⟩ true t1 i
      = (⟨true, some t0, some i⟩,
         { cancelled := tm, scheduled := some (i, STABILIZATION_DELAY) }) := by
  simp [initNetworkListenerStep, hlong]

/-- Processing a run of repeated offline reports followed by a final online
report, starting offline: the offline reports are all no-ops and the final
step acts from the unchanged state. -/
theorem runNetEvents_offline_then_online (ts tm : Option Nat) (mids : List Nat)
    (t1 i : Nat) :
    runNetEvents ⟨false, ts, tm⟩ (mids.map (fun t => (false, t)) ++ [(true, t1)]) i
      = ((initNetworkListenerStep ⟨false, ts, tm⟩ true t1 (i + mids.length)).1,
         mids.map (fun _ => ({ cancelled := none, scheduled := none } : NetEffect))
           ++ [(initNetworkListenerStep ⟨false, ts, tm⟩ true t1 (i + mids.length)).2]) := by
  induction mids generalizing i with
  | nil => simp [runNetEvents]
  | cons t rest ih =>
    simp only [List.map_cons, List.cons_append, runNetEvents, step_offline_noop,
      List.append_eq, ih (i + 1), List.length_cons, List.map_cons]
    have : i + 1 + rest.length = i + (rest.length + 1) := by omega
    rw [this]

/-- C5: for a connectivity event sequence consisting of a transition to
offline at time `t0`, any number of further offline reports, and a return to
online at `t1` with offline interval `t1 - t0 ≤ 3000` ms, no sync callback is
scheduled (and none cancelled) at any step, and `offlineTimestamp` is cleared
once the interval closes. -/
theorem flap_suppression (s : ListenerState) (t0 t1 : Nat) (mids : List Nat) (i : Nat)
    (hON : s.isOnline = true) (hshort : t1 - t0 ≤ OFFLINE_THRESHOLD) :
    (∀ e ∈ (runNetEvents s ((false, t0) :: (mids.map (fun t => (false, t)) ++ [(true, t1)])) i).2,
        e.scheduled = none ∧ e.cancelled = none) ∧
    (runNetEvents s ((false, t0) :: (mids.map (fun t => (false, t)) ++ [(true, t1)])) i).1.offlineTimestamp
      = none := by
  obtain ⟨b, ts, tm⟩ := s
  obtain rfl : b = true := hON
  simp only [runNetEvents, step_go_offline,
    runNetEvents_offline_then_online ts tm mids t1 (i + 1),
    runNetEvents_offline_then_online (some t0) tm mids t1 (i + 1),
    step_online_short t0 tm t1 (i + 1 + mids.length) hshort]
  constructor
  · intro e he
    simp only [List.mem_cons, List.mem_append, List.mem_map, List.not_mem_nil,
      or_false] at he
    rcases he with rfl | (⟨_, _, rfl⟩ | rfl)
    · exact ⟨rfl, rfl⟩
    · exact ⟨rfl, rfl⟩
    · exact ⟨rfl, rfl⟩
  · trivial

/-- C6: an offline interval longer than 3000 ms followed by an online report
schedules exactly one sync callback, with the 2000 ms stabilization delay; a
second qualifying offline-to-online transition cancels the previously
scheduled callback and schedules a single new one, so exactly one callback
survives for the restoration. -/
theorem genuine_restore_debounce (s : ListenerState) (t0 t1 t2 t3 i : Nat)
    (hON : s.isOnline = true) (hTO : s.syncTimeout = none)
    (h1 : t1 - t0 > OFFLINE_THRESHOLD) (h2 : t3 - t2 > OFFLINE_THRESHOLD) :
    (runNetEvents s [(false, t0), (true, t1)] i).2
      = [{ cancelled := none, scheduled := none },
         { cancelled := none, scheduled := some (i + 1, STABILIZATION_DELAY) }] ∧
    survivingCallbacks (runNetEvents s [(false, t0), (true, t1)] i).2 = [i + 1] ∧
    (runNetEvents s [(false, t0), (true, t1), (false, t2), (true, t3)] i).2
      = [{ cancelled := none, scheduled := none },
         { cancelled := none, scheduled := some (i + 1, STABILIZATION_DELAY) },
         { cancelled := none, scheduled := none },
         { cancelled := some (i + 1), scheduled := some (i + 3, STABILIZATION_DELAY) }] ∧
    survivingCallbacks (runNetEvents s [(false, t0), (true, t1), (false, t2), (true, t3)] i).2
      = [i + 3] := by
  obtain ⟨b, ts, tm⟩ := s
  obtain rfl : b = true := hON
  obtain rfl : tm = none := hTO
  have e1 : (runNetEvents (⟨true, ts, none⟩ : ListenerState) [(false, t0), (true, t1)] i).2
      = [{ cancelled := none, scheduled := none },
         { cancelled := none, scheduled := some (i + 1, STABILIZATION_DELAY) }] := by
    simp [runNetEvents, step_go_offline, step_online_long t0 none t1 (i + 1) h1]
  have e2 : (runNetEvents (⟨true, ts, none⟩ : ListenerState)
        [(false, t0), (true, t1), (false, t2), (true, t3)] i).2
      = [{ cancelled := none, scheduled := none },
         { cancelled := none, scheduled := some (i + 1, STABILIZATION_DELAY) },
         { cancelled := none, scheduled := none },
         { cancelled := some (i + 1), scheduled := some (i + 3, STABILIZATION_DELAY) }] := by
    simp [runNetEvents, step_go_offline, step_online_long t0 none t1 (i + 1) h1,
      step_online_long t2 (some (i + 1)) t3 (i + 3) h2]
  refine ⟨e1, ?_, e2, ?_⟩
  · rw [e1]
    simp [survivingCallbacks, scheduledIds, cancelledIds]
  · rw [e2]
    simp [survivingCallbacks, scheduledIds, cancelledIds, List.filter, List.contains]

/-- Witness for C5 at a concrete flap: online, offline at 0 ms, online again at
1000 ms — nothing scheduled, timestamp cleared. -/
theorem flap_suppression_witness :
    (∀ e ∈ (runNetEvents { isOnline := true, offlineTimestamp := none, syncTimeout := none }
        ((false, 0) :: (([] : List Nat).map (fun t => (false, t)) ++ [(true, 1000)])) 0).2,
        e.scheduled = none ∧ e.cancelled = none) ∧
    (runNetEvents { isOnline := true, offlineTimestamp := none, syncTimeout := none }
        ((false, 0) :: (([] : List Nat).map (fun t => (false, t)) ++ [(true, 1000)])) 0).1.offlineTimestamp
      = none :=
  flap_suppression { isOnline := true, offlineTimestamp := none, syncTimeout := none }
    0 1000 [] 0 rfl (by decide)

/-- Witness for C6 at concrete times: offline 0→4000 ms (qualifying), then
offline 5000→9000 ms (qualifying) — the first callback is cancelled and only
the second survives. -/
theorem genuine_restore_debounce_witness :
    (runNetEvents { isOnline := true, offlineTimestamp := none, syncTimeout := none }
        [(false, 0), (true, 4000)] 0).2
      = [{ cancelled := none, scheduled := none },
         { cancelled := none, scheduled := some (1, STABILIZATION_DELAY) }] ∧
    survivingCallbacks (runNetEvents { isOnline := true, offlineTimestamp := none, syncTimeout := none }
        [(false, 0), (true, 4000)] 0).2 = [1] ∧
    (runNetEvents { isOnline := true, offlineTimestamp := none, syncTimeout := none }
        [(false, 0), (true, 4000), (false, 5000), (true, 9000)] 0).2
      = [{ cancelled := none, scheduled := none },
         { cancelled := none, scheduled := some (1, STABILIZATION_DELAY) },
         { cancelled := none, scheduled := none },
         { cancelled := some 1, scheduled := some (3, STABILIZATION_DELAY) }] ∧
    survivingCallbacks (runNetEvents { isOnline := true, offlineTimestamp := none, syncTimeout := none }
        [(false, 0), (true, 4000), (false, 5000), (true, 9000)] 0).2
      = [3] :=
  genuine_restore_debounce { isOnline := true, offlineTimestamp := none, syncTimeout := none }
    0 4000 5000 9000 0 rfl rfl (by decide) (by decide)

/-! ## Local store data model (schema.ts lines 44-182, sync.ts AsyncStorage keys)

Rows of the SQLite tables touched by the sync engine, with the columns the
sync code reads or writes.  SQLite integer booleans are modelled as `Bool`,
nullable columns as `Option`, and `REAL` money columns as `Int` (the sync
engine copies them without arithmetic).  ISO-8601 timestamp strings compare
lexicographically, which is their chronological order. -/

/-- Row of the `sync_queue` table (schema.ts lines 163-175). -/
structure QueueRow where
  id : Nat
  operation_type : String
  entity_type : String
  entity_id : String
  data : String
  timestamp : String
  retry_count : Nat
  last_error : Option String
  synced : Bool
  synced_at : Option String
  created_at : String
deriving DecidableEq

/-- Row of the `categories` table, restricted to the columns the sync engine
touches (`is_synced`, `server_updated_at`, `updated_at`) plus identity. -/
structure CategoryRow where
  id : String
  name : String
  is_synced : Bool
  server_updated_at : Option String
  updated_at : String
deriving DecidableEq

/-- Row of the `items` table, restricted to the columns the sync engine
touches (`is_synced`, `server_updated_at`, `image_url`, `updated_at`). -/
structure ItemRow where
  id : String
  name : String
  image_url : Option String
  is_synced : Bool
  server_updated_at : Option String
  updated_at : String
deriving DecidableEq

/-- Row of the `bills` table: the columns read by `syncBills` (sync.ts lines
844-875) and written by the bill insertion of `initialSync` (lines 1171-1210).
The serialized `items` JSON column is carried as an opaque string. -/
structure BillRow where
  id : String
  invoice_number : Option String
  bill_number : String
  billing_mode : Option String
  restaurant_name : Option String
  address : Option String
  gstin : Option String
  fssai_license : Option String
  bill_date : Option String
  customer_name : Option String
  customer_phone : Option String
  items : String
  subtotal : Int
  discount_amount : Option Int
  discount_percentage : Option Int
  cgst_amount : Option Int
  sgst_amount : Option Int
  igst_amount : Option Int
  total_tax : Option Int
  total_amount : Int
  payment_mode : Option String
  payment_method : Option String
  payment_reference : Option String
  amount_paid : Option Int
  change_amount : Option Int
  notes : Option String
  device_id : Option String
  vendor_id : Option String
  is_synced : Bool
  created_at : String
  updated_at : String
deriving DecidableEq

/-- Row of the `inventory_items` table (schema.ts lines 113-133), restricted
to the columns `syncInventory` reads plus the `is_synced` flag it writes. -/
structure InventoryRow where
  id : String
  name : String
  description : Option String
  quantity : String
  unit_type : String
  sku : Option String
  barcode : Option String
  supplier_name : Option String
  supplier_contact : Option String
  min_stock_level : Option String
  reorder_quantity : Option String
  is_active : Bool
  is_synced : Bool
deriving DecidableEq

/-- Stored user data (auth.ts `AuthData`, required fields); `syncBills` only
tests its presence. -/
structure AuthData where
  token : String
  user_id : String
  username : String
deriving DecidableEq

/-- One per-entity count inside a sync history entry (sync.ts lines 618-623). -/
structure HistoryItem where
  name : String
  count : Nat
deriving DecidableEq

/-- Entry of the capped `sync_history` list (sync.ts lines 614-624). -/
structure SyncHistoryEntry where
  id : String
  date : String
  timestamp : String
  items : List HistoryItem
deriving DecidableEq

/-- The durable local state visible to the sync engine: the SQLite tables plus
the AsyncStorage keys (`@user_data`, `sync_history`, `last_sync_time`). -/
structure Db where
  sync_queue : List QueueRow
  categories : List CategoryRow
  items : List ItemRow
  bills : List BillRow
  inventory_items : List InventoryRow
  user_data : Option AuthData
  sync_history : List SyncHistoryEntry
  last_sync_time : Option String
deriving DecidableEq

/-! ## JavaScript truthiness helpers

`a || b` on JavaScript strings treats `null`/`undefined` and `""` as falsy;
on numbers it treats `null`/`undefined` and `0` as falsy.  The bill payload
transform in `syncBills` relies on this. -/

/-- JavaScript `x || d` for a nullable string. -/
def jsOrStr (x : Option String) (d : String) : String :=
  match x with
  | none => d
  | some s => if s = "" then d else s

/-- JavaScript `x || null` for a nullable string. -/
def jsOrNullStr (x : Option String) : Option String :=
  match x with
  | none => none
  | some s => if s = "" then none else some s

/-- JavaScript `x || d` for a nullable number. -/
def jsOrNum (x : Option Int) (d : Int) : Int :=
  match x with
  | none => d
  | some v => if v = 0 then d else v

/-! ## Remote API client model (api.ts, consumed by sync.ts)

Each remote call is modelled as a function of the request; a batch endpoint
returning `none` models a thrown request error (timeout, 5xx, malformed
response), `some response` a successful round trip.  JSON parsing and
re-serialization at the wire boundary are modelled as the identity on the
serialized form. -/

/-- Element of the ordered batch body sent to `POST /categories/sync` and
`POST /items/sync` (sync.ts lines 732-737). -/
structure SyncPayloadEntry where
  operation : String
  data : Option String
  id : Option String
  timestamp : String
deriving DecidableEq

/-- Translation of one queued operation into its wire tuple (sync.ts lines
732-737 and 779-784). -/
def toSyncPayload (op : QueueRow) : SyncPayloadEntry :=
  { operation := op.operation_type
  , data := if op.operation_type ≠ "delete" then some op.data else none
  , id := if op.operation_type = "delete" then some op.entity_id else none
  , timestamp := op.timestamp }

/-- Category snapshot echoed by the server (sync.ts lines 747-755). -/
structure CategoryEcho where
  id : String
  updated_at : String
deriving DecidableEq

/-- Response of `POST /categories/sync`. -/
structure CategorySyncResponse where
  synced : Nat
  categories : List CategoryEcho
deriving DecidableEq

/-- Item snapshot echoed by the server, including the server-rewritten image
URL (sync.ts lines 794-804). -/
structure ItemEcho where
  id : String
  last_updated : String
  image_url : Option String
deriving DecidableEq

/-- Response of `POST /items/sync`. -/
structure ItemSyncResponse where
  synced : Nat
  items : List ItemEcho
deriving DecidableEq

/-- Bill wire object sent to the backup sync endpoint (sync.ts lines 844-875). -/
structure BillPayload where
  invoice_number : String
  bill_id : String
  billing_mode : String
  restaurant_name : String
  address : String
  gstin : Option String
  fssai_license : Option String
  bill_date : String
  items : String
  subtotal : Int
  discount_amount : Int
  discount_percentage : Int
  cgst : Int
  sgst : Int
  igst : Int
  total_tax : Int
  total : Int
  payment_mode : String
  payment_reference : Option String
  amount_paid : Int
  change_amount : Int
  customer_name : Option String
  customer_phone : Option String
  notes : Option String
  timestamp : String
  device_id : Option String
deriving DecidableEq

/-- Transformation of a local bill row to the wire schema (sync.ts lines
844-875), with JavaScript `||` defaulting made explicit. -/
def billToPayload (bill : BillRow) : BillPayload :=
  { invoice_number := jsOrStr bill.invoice_number bill.bill_number
  , bill_id := bill.id
  , billing_mode := jsOrStr bill.billing_mode "gst"
  , restaurant_name := jsOrStr bill.restaurant_name ""
  , address := jsOrStr bill.address ""
  , gstin := jsOrNullStr bill.gstin
  , fssai_license := jsOrNullStr bill.fssai_license
  , bill_date := jsOrStr bill.bill_date ((bill.created_at.splitOn "T").headD "")
  , items := bill.items
  , subtotal := bill.subtotal
  , discount_amount := jsOrNum bill.discount_amount 0
  , discount_percentage := jsOrNum bill.discount_percentage 0
  , cgst := jsOrNum bill.cgst_amount 0
  , sgst := jsOrNum bill.sgst_amount 0
  , igst := jsOrNum bill.igst_amount 0
  , total_tax := jsOrNum bill.total_tax 0
  , total := bill.total_amount
  , payment_mode := jsOrStr bill.payment_mode (jsOrStr bill.payment_method "cash")
  , payment_reference := jsOrNullStr bill.payment_reference
  , amount_paid := jsOrNum bill.amount_paid bill.total_amount
  , change_amount := jsOrNum bill.change_amount 0
  , customer_name := jsOrNullStr bill.customer_name
  , customer_phone := jsOrNullStr bill.customer_phone
  , notes := jsOrNullStr bill.notes
  , timestamp := bill.created_at
  , device_id := bill.device_id }

/-- Response of the bills backup sync endpoint (only its presence is used). -/
structure BillSyncResponse where
  synced : Nat
deriving DecidableEq

/-- Outcome of the `GET /inventory/{id}` existence probe: found, a 404 (item
absent, expected), or any other request error (rethrown by the probe). -/
inductive InvProbe where
  | found
  | notFound
  | requestError
deriving DecidableEq

/-- Body of the per-item inventory create/update calls (sync.ts lines 925-952). -/
structure InventoryPayload where
  name : String
  description : Option String
  quantity : String
  unit_type : String
  sku : Option String
  barcode : Option String
  supplier_name : Option String
  supplier_contact : Option String
  min_stock_level : Option String
  reorder_quantity : Option String
  is_active : Bool
deriving DecidableEq

/-- Fields sent for one inventory item (identical for update and create). -/
def toInventoryPayload (item : InventoryRow) : InventoryPayload :=
  { name := item.name
  , description := item.description
  , quantity := item.quantity
  , unit_type := item.unit_type
  , sku := item.sku
  , barcode := item.barcode
  , supplier_name := item.supplier_name
  , supplier_contact := item.supplier_contact
  , min_stock_level := item.min_stock_level
  , reorder_quantity := item.reorder_quantity
  , is_active := item.is_active }

/-- The remote API client as seen by the sync engine. -/
structure Api where
  categoriesSync : List SyncPayloadEntry → Option CategorySyncResponse
  itemsSync : List SyncPayloadEntry → Option ItemSyncResponse
  billsSync : List BillPayload → Option BillSyncResponse
  inventoryGetById : String → InvProbe
  inventoryUpdate : String → InventoryPayload → Bool
  inventoryCreate : InventoryPayload → Bool

/-- Record of one network request issued during a cycle. -/
inductive ApiCall where
  | categoriesSync (payload : List SyncPayloadEntry)
  | itemsSync (payload : List SyncPayloadEntry)
  | billsSync (payload : List BillPayload)
  | inventoryGetById (id : String)
  | inventoryUpdate (id : String)
  | inventoryCreate (name : String)
deriving DecidableEq

/-! ## Operation queue (sync.ts lines 650-714) -/

/-- The `markOperationSynced` store update (sync.ts lines 692-703):
`UPDATE sync_queue SET synced = 1, synced_at = ? WHERE id = ?`. -/
def markOperationSynced (db : Db) (operationId : Nat) (now : String) : Db :=
  { db with sync_queue := db.sync_queue.map (fun r =>
      if r.id = operationId then { r with synced := true, synced_at := some now } else r) }

/-- The `updateRetryCount` store update (sync.ts lines 705-714):
`UPDATE sync_queue SET retry_count = retry_count + 1, last_error = ? WHERE
id = ?`.  Exported by the source but not invoked by any drain. -/
def updateRetryCount (db : Db) (operationId : Nat) (error : String) : Db :=
  { db with sync_queue := db.sync_queue.map (fun r =>
      if r.id = operationId then
        { r with retry_count := r.retry_count + 1, last_error := some error }
      else r) }

/-- Rows matched by `WHERE entity_type = ? AND synced = 0` (sync.ts lines
720-724 and 767-771). -/
def pendingRows (db : Db) (entityType : String) : List QueueRow :=
  db.sync_queue.filter (fun r => r.entity_type == entityType && r.synced == false)

/-- SQLite TEXT ordering (byte-lexicographic memcmp order, which for these
ASCII ISO-8601 timestamps is chronological order), as structural recursion
over the character lists. -/
def textLtb : List Char → List Char → Bool
  | [], [] => false
  | [], _ :: _ => true
  | _ :: _, [] => false
  | a :: as, b :: bs => if a = b then textLtb as bs else decide (a < b)

/-- Strict TEXT order on two timestamp strings. -/
def textLt (a b : String) : Prop := textLtb a.data b.data = true

instance (a b : String) : Decidable (textLt a b) :=
  inferInstanceAs (Decidable (textLtb a.data b.data = true))

/-- Comparison underlying `ORDER BY created_at ASC`: row `a` may precede row
`b` when `b.created_at` is not strictly below `a.created_at`. -/
def createdLe (a b : QueueRow) : Prop := textLtb b.created_at.data a.created_at.data = false

/-- Relational semantics of `SELECT * FROM sync_queue WHERE entity_type = ?
AND synced = 0 ORDER BY created_at ASC`: a legal result is any permutation of
the matching rows that is nondecreasing in `created_at`.  SQL leaves the
relative order of rows with equal `created_at` unspecified. -/
def IsOrderedSelection (db : Db) (entityType : String) (ops : List QueueRow) : Prop :=
  ops.Perm (pendingRows db entityType) ∧ ops.Sorted createdLe

/-- A query engine: one concrete choice, for every store state, of a legal
result of the pending-operations query. -/
def SelFn : Type := Db → String → List QueueRow

/-- The query engine returns a legal ordered selection on every state. -/
def ValidSel (sel : SelFn) : Prop :=
  ∀ db entityType, IsOrderedSelection db entityType (sel db entityType)

/-- Rows matched by `WHERE is_synced = 0` on the bills table (sync.ts line 834). -/
def unsyncedBills (db : Db) : List BillRow :=
  db.bills.filter (fun b => b.is_synced == false)

/-- Comparison underlying `ORDER BY created_at ASC` on bills. -/
def billCreatedLe (a b : BillRow) : Prop :=
  textLtb b.created_at.data a.created_at.data = false

/-- Relational semantics of `SELECT * FROM bills WHERE is_synced = 0 ORDER BY
created_at ASC LIMIT 50` (sync.ts lines 833-835). -/
def IsBillSelection (db : Db) (sel : List BillRow) : Prop :=
  ∃ full : List BillRow,
    full.Perm (unsyncedBills db) ∧ full.Sorted billCreatedLe ∧ sel = full.take 50

/-- A query engine for the bills query. -/
def BillSelFn : Type := Db → List BillRow

/-- The bills query engine returns a legal selection on every state. -/
def ValidBillSel (bsel : BillSelFn) : Prop :=
  ∀ db, IsBillSelection db (bsel db)

/-- Modelled from the spec: `getUnsyncedInventoryItems` of the storage module
(`src/services/storage.ts`, which is not part of the source tree): returns
the inventory items whose current local version the server has not yet
acknowledged (`isSynced == false`). -/
def getUnsyncedInventoryItems (db : Db) : List InventoryRow :=
  db.inventory_items.filter (fun i => i.is_synced == false)

/-- Modelled from the spec: `markInventoryItemSynced` of the storage module
(not part of the source tree): records that the server acknowledged the
current local version of one inventory item (`isSynced := true`). -/
def markInventoryItemSynced (db : Db) (id : String) : Db :=
  { db with inventory_items := db.inventory_items.map (fun i =>
      if i.id = id then { i with is_synced := true } else i) }

/-! ## Per-entity drains (sync.ts lines 718-974) -/

/-- Result of one per-entity drain. -/
structure SyncResult where
  success : Bool
  synced : Nat
deriving DecidableEq

/-- A drain's result together with the store it leaves behind and the network
requests it issued. -/
structure DrainOut where
  result : SyncResult
  db : Db
  calls : List ApiCall
deriving DecidableEq

/-- Application of one echoed category snapshot (sync.ts lines 748-755):
`UPDATE categories SET is_synced = 1, server_updated_at = ?, updated_at = ?
WHERE id = ?`. -/
def applyCategoryEcho (now : String) (db : Db) (c : CategoryEcho) : Db :=
  { db with categories := db.categories.map (fun row =>
      if row.id = c.id then
        { row with
          is_synced := true
          server_updated_at := some c.updated_at
          updated_at := now }
      else row) }

/-- Application of one echoed item snapshot (sync.ts lines 798-804):
`UPDATE items SET is_synced = 1, server_updated_at = ?, image_url = ?,
updated_at = ? WHERE id = ?`.  The background image-cache write is an
external side effect outside the store. -/
def applyItemEcho (now : String) (db : Db) (it : ItemEcho) : Db :=
  { db with items := db.items.map (fun row =>
      if row.id = it.id then
        { row with
          is_synced := true
          server_updated_at := some it.last_updated
          image_url := it.image_url
          updated_at := now }
      else row) }

/-- The `syncCategories` drain (sync.ts lines 718-763). -/
def syncCategories (sel : SelFn) (api : Api) (now : String) (db : Db) : DrainOut :=
  let operations := sel db "category"
  if operations.isEmpty then
    { result := { success := true, synced := 0 }, db := db, calls := [] }
  else
    let syncPayload := operations.map toSyncPayload
    match api.categoriesSync syncPayload with
    | none =>
      { result := { success := false, synced := 0 }, db := db,
        calls := [ApiCall.categoriesSync syncPayload] }
    | some response =>
      let db1 := operations.foldl (fun d op => markOperationSynced d op.id now) db
      let db2 := response.categories.foldl (applyCategoryEcho now) db1
      { result := { success := true, synced := operations.length }, db := db2,
        calls := [ApiCall.categoriesSync syncPayload] }

/-- The `syncItems` drain (sync.ts lines 765-822). -/
def syncItems (sel : SelFn) (api : Api) (now : String) (db : Db) : DrainOut :=
  let operations := sel db "item"
  if operations.isEmpty then
    { result := { success := true, synced := 0 }, db := db, calls := [] }
  else
    let syncPayload := operations.map toSyncPayload
    match api.itemsSync syncPayload with
    | none =>
      { result := { success := false, synced := 0 }, db := db,
        calls := [ApiCall.itemsSync syncPayload] }
    | some response =>
      let db1 := operations.foldl (fun d op => markOperationSynced d op.id now) db
      let db2 := response.items.foldl (applyItemEcho now) db1
      { result := { success := true, synced := operations.length }, db := db2,
        calls := [ApiCall.itemsSync syncPayload] }

/-- The `syncBills` drain (sync.ts lines 824-893): skipped entirely without
stored user data; on success all selected bill ids are marked synced in one
update (`UPDATE bills SET is_synced = 1 WHERE id IN (...)`). -/
def syncBills (bsel : BillSelFn) (api : Api) (db : Db) : DrainOut :=
  match db.user_data with
  | none => { result := { success := false, synced := 0 }, db := db, calls := [] }
  | some _ =>
    let bills := bsel db
    if bills.isEmpty then
      { result := { success := true, synced := 0 }, db := db, calls := [] }
    else
      let billPayload := bills.map billToPayload
      match api.billsSync billPayload with
      | none =>
        { result := { success := false, synced := 0 }, db := db,
          calls := [ApiCall.billsSync billPayload] }
      | some _response =>
        let billIds := bills.map (fun b => b.id)
        let db1 := { db with bills := db.bills.map (fun b =>
            if billIds.contains b.id then { b with is_synced := true } else b) }
        { result := { success := true, synced := bills.length }, db := db1,
          calls := [ApiCall.billsSync billPayload] }

/-- Loop state of the per-item inventory drain. -/
structure InvAcc where
  db : Db
  syncedCount : Nat
  errorCount : Nat
  calls : List ApiCall

/-- One iteration of the `syncInventory` loop (sync.ts lines 910-962): probe
existence by id, then update or create, mark the single item synced on
success; every failure is counted and isolated. -/
def syncInventoryItem (api : Api) (acc : InvAcc) (item : InventoryRow) : InvAcc :=
  match api.inventoryGetById item.id with
  | InvProbe.requestError =>
    { acc with
      errorCount := acc.errorCount + 1
      calls := acc.calls ++ [ApiCall.inventoryGetById item.id] }
  | InvProbe.found =>
    let calls := acc.calls ++ [ApiCall.inventoryGetById item.id, ApiCall.inventoryUpdate item.id]
    if api.inventoryUpdate item.id (toInventoryPayload item) then
      { db := markInventoryItemSynced acc.db item.id, syncedCount := acc.syncedCount + 1,
        errorCount := acc.errorCount, calls := calls }
    else
      { acc with errorCount := acc.errorCount + 1, calls := calls }
  | InvProbe.notFound =>
    let calls := acc.calls ++ [ApiCall.inventoryGetById item.id, ApiCall.inventoryCreate item.name]
    if api.inventoryCreate (toInventoryPayload item) then
      { db := markInventoryItemSynced acc.db item.id, syncedCount := acc.syncedCount + 1,
        errorCount := acc.errorCount, calls := calls }
    else
      { acc with errorCount := acc.errorCount + 1, calls := calls }

/-- The `syncInventory` drain (sync.ts lines 897-974). -/
def syncInventory (api : Api) (db : Db) : DrainOut :=
  let unsyncedItems := getUnsyncedInventoryItems db
  if unsyncedItems.isEmpty then
    { result := { success := true, synced := 0 }, db := db, calls := [] }
  else
    let acc := unsyncedItems.foldl (syncInventoryItem api)
      { db := db, syncedCount := 0, errorCount := 0, calls := [] }
    { result := { success := acc.errorCount == 0, synced := acc.syncedCount },
      db := acc.db, calls := acc.calls }

/-! ## Sync history and the full cycle (sync.ts lines 603-646 and 976-1039) -/

/-- History entry construction (sync.ts lines 610-624).  `fmt` stands for the
external display formatter `formatDisplayDateTime` of `utils/helpers`; the
entry id and timestamp are the ISO `now`.  Only entities with a nonzero count
are listed (line 623). -/
def mkSyncHistoryEntry (fmt : String → String) (now : String)
    (categoriesSynced itemsSynced billsSynced inventorySynced : Nat) : SyncHistoryEntry :=
  { id := now
  , date := fmt now
  , timestamp := now
  , items :=
      [ ({ name := "Categories", count := categoriesSynced } : HistoryItem)
      , { name := "Items", count := itemsSynced }
      , { name := "Bills", count := billsSynced }
      , { name := "Inventory", count := inventorySynced } ].filter
        (fun it => decide (0 < it.count)) }

/-- The `saveSyncToHistory` update (sync.ts lines 603-646): prepend the new
entry and keep only the most recent 20. -/
def saveSyncToHistory (fmt : String → String) (now : String)
    (categoriesSynced itemsSynced billsSynced inventorySynced : Nat) (db : Db) : Db :=
  let newEntry := mkSyncHistoryEntry fmt now categoriesSynced itemsSynced
    billsSynced inventorySynced
  let history := newEntry :: db.sync_history
  let history := if history.length > 20 then history.take 20 else history
  { db with sync_history := history }

/-- Result record returned by `syncAll` (sync.ts lines 976-982). -/
structure SyncAllResult where
  success : Bool
  categoriesSynced : Nat
  itemsSynced : Nat
  billsSynced : Nat
  inventorySynced : Nat
deriving DecidableEq

/-- A full cycle's result, final store state and issued network requests. -/
structure SyncAllOut where
  result : SyncAllResult
  db : Db
  calls : List ApiCall
deriving DecidableEq

/-- The `syncAll` cycle (sync.ts lines 976-1039): entry guard on connectivity,
the four drains in sequence, overall success as the conjunction of the four
sub-results, then the conditional history append and `last_sync_time` write. -/
def syncAll (sel : SelFn) (bsel : BillSelFn) (api : Api) (fmt : String → String)
    (online : Bool) (now : String) (db : Db) : SyncAllOut :=
  if !online then
    { result := { success := false, categoriesSynced := 0, itemsSynced := 0
                , billsSynced := 0, inventorySynced := 0 }
    , db := db, calls := [] }
  else
    let categoriesResult := syncCategories sel api now db
    let itemsResult := syncItems sel api now categoriesResult.db
    let billsResult := syncBills bsel api itemsResult.db
    let inventoryResult := syncInventory api billsResult.db
    let success := categoriesResult.result.success && itemsResult.result.success &&
      billsResult.result.success && inventoryResult.result.success
    let finalDb :=
      if success && (decide (0 < categoriesResult.result.synced) ||
          decide (0 < itemsResult.result.synced) ||
          decide (0 < billsResult.result.synced) ||
          decide (0 < inventoryResult.result.synced)) then
        let db4 := saveSyncToHistory fmt now categoriesResult.result.synced
          itemsResult.result.synced billsResult.result.synced
          inventoryResult.result.synced inventoryResult.db
        { db4 with last_sync_time := some now }
      else inventoryResult.db
    { result := { success := success
                , categoriesSynced := categoriesResult.result.synced
                , itemsSynced := itemsResult.result.synced
                , billsSynced := billsResult.result.synced
                , inventorySynced := inventoryResult.result.synced }
    , db := finalDb
    , calls := categoriesResult.calls ++ itemsResult.calls ++
        billsResult.calls ++ inventoryResult.calls }

/-! ## Initial-sync bill download (sync.ts lines 1159-1212) -/

/-- Bill object of the server download response consumed by the bill
insertion loop of `initialSync`. -/
structure DownloadedBill where
  id : String
  invoice_number : String
  bill_number : Option String
  billing_mode : Option String
  restaurant_name : Option String
  address : Option String
  gstin : Option String
  fssai_license : Option String
  bill_date : Option String
  customer_name : Option String
  customer_phone : Option String
  items : String
  subtotal : Int
  discount_amount : Option Int
  discount_percentage : Option Int
  cgst : Option Int
  sgst : Option Int
  igst : Option Int
  total_tax : Option Int
  total : Int
  payment_mode : Option String
  payment_reference : Option String
  amount_paid : Option Int
  change_amount : Option Int
  device_id : Option String
  vendor_id : Option String
  timestamp : String
deriving DecidableEq

/-- Local row built by the `INSERT INTO bills` of `initialSync` (sync.ts lines
1171-1210), each column given the value the statement names for it.  The
source's value array has 29 entries for the statement's 30 placeholders (the
`notes` value is missing between `change_amount` and `device_id`), so at run
time the trailing columns receive shifted bindings; no claim depends on the
columns after `change_amount`, and the columns up to and including
`change_amount` — in particular `invoice_number` — are bound as modelled. -/
def downloadedBillRow (bill : DownloadedBill) (now : String) : BillRow :=
  { id := bill.id
  , invoice_number := some bill.invoice_number
  , bill_number := jsOrStr bill.bill_number bill.invoice_number
  , billing_mode := some (jsOrStr bill.billing_mode "gst")
  , restaurant_name := some (jsOrStr bill.restaurant_name "")
  , address := some (jsOrStr bill.address "")
  , gstin := jsOrNullStr bill.gstin
  , fssai_license := jsOrNullStr bill.fssai_license
  , bill_date := some (jsOrStr bill.bill_date ((bill.timestamp.splitOn "T").headD ""))
  , customer_name := jsOrNullStr bill.customer_name
  , customer_phone := jsOrNullStr bill.customer_phone
  , items := bill.items
  , subtotal := bill.subtotal
  , discount_amount := some (jsOrNum bill.discount_amount 0)
  , discount_percentage := some (jsOrNum bill.discount_percentage 0)
  , cgst_amount := some (jsOrNum bill.cgst 0)
  , sgst_amount := some (jsOrNum bill.sgst 0)
  , igst_amount := some (jsOrNum bill.igst 0)
  , total_tax := some (jsOrNum bill.total_tax 0)
  , total_amount := bill.total
  , payment_mode := some (jsOrStr bill.payment_mode "cash")
  , payment_method := none
  , payment_reference := jsOrNullStr bill.payment_reference
  , amount_paid := some (jsOrNum bill.amount_paid bill.total)
  , change_amount := some (jsOrNum bill.change_amount 0)
  , notes := none
  , device_id := jsOrNullStr bill.device_id
  , vendor_id := jsOrNullStr bill.vendor_id
  , is_synced := true
  , created_at := bill.timestamp
  , updated_at := now }

/-- One step of the bill download loop (sync.ts lines 1162-1211): `SELECT id
FROM bills WHERE invoice_number = ?`, then insert only when no row matched. -/
def insertBillIfNew (now : String) (db : Db) (bill : DownloadedBill) : Db :=
  let existing := db.bills.filter (fun r => r.invoice_number == some bill.invoice_number)
  if existing.isEmpty then
    { db with bills := db.bills ++ [downloadedBillRow bill now] }
  else db

/-- The whole bill download loop of `initialSync` over the response's bills. -/
def initialSyncInsertBills (now : String) (db : Db) (bills : List DownloadedBill) : Db :=
  bills.foldl (insertBillIfNew now) db

/-- Number of local bill rows carrying a given invoice number. -/
def countInvoice (db : Db) (invoice : String) : Nat :=
  (db.bills.filter (fun r => r.invoice_number == some invoice)).length

/-! ## Store-update characterizations -/

/-- Marking a batch of operations one by one (the loop of sync.ts lines
743-745 and 790-792) marks exactly the rows whose id occurs in the batch. -/
theorem foldl_markOperationSynced (ops : List QueueRow) (db : Db) (now : String) :
    ops.foldl (fun d op => markOperationSynced d op.id now) db
      = { db with sync_queue := db.sync_queue.map (fun r =>
          if r.id ∈ ops.map (fun o => o.id) then
            { r with synced := true, synced_at := some now }
          else r) } := by
  induction ops generalizing db with
  | nil =>
    simp only [List.map_nil, List.not_mem_nil, if_false]
    cases db
    simp
  | cons o os ih =>
    rw [List.foldl_cons, ih]
    simp only [markOperationSynced, List.map_map, List.map_cons]
    congr 1
    refine List.map_congr_left (fun r _ => ?_)
    by_cases h1 : r.id = o.id
    · by_cases h2 : r.id ∈ os.map (fun o => o.id) <;>
        simp [Function.comp, h1, h2, List.mem_cons]
    · by_cases h2 : r.id ∈ os.map (fun o => o.id) <;>
        simp [Function.comp, h1, h2, List.mem_cons]

/-- Echo application for categories only rewrites the `categories` table. -/
theorem foldl_applyCategoryEcho (es : List CategoryEcho) (db : Db) (now : String) :
    es.foldl (applyCategoryEcho now) db
      = { db with categories := (es.foldl (applyCategoryEcho now) db).categories } := by
  induction es generalizing db with
  | nil => rfl
  | cons e es ih => rw [List.foldl_cons, ih]; rfl

/-- Echo application for items only rewrites the `items` table. -/
theorem foldl_applyItemEcho (es : List ItemEcho) (db : Db) (now : String) :
    es.foldl (applyItemEcho now) db
      = { db with items := (es.foldl (applyItemEcho now) db).items } := by
  induction es generalizing db with
  | nil => rfl
  | cons e es ih => rw [List.foldl_cons, ih]; rfl

/-- The categories drain only touches the queue and the categories table. -/
theorem syncCategories_db_frame (sel : SelFn) (api : Api) (now : String) (db : Db) :
    (syncCategories sel api now db).db
      = { db with
          sync_queue := (syncCategories sel api now db).db.sync_queue
          categories := (syncCategories sel api now db).db.categories } := by
  simp only [syncCategories]
  cases (sel db "category").isEmpty
  · cases h : api.categoriesSync ((sel db "category").map toSyncPayload)
    · simp
    · simp only [Bool.false_eq_true, if_false, h]
      rw [foldl_applyCategoryEcho, foldl_markOperationSynced]
  · simp

/-- The items drain only touches the queue and the items table. -/
theorem syncItems_db_frame (sel : SelFn) (api : Api) (now : String) (db : Db) :
    (syncItems sel api now db).db
      = { db with
          sync_queue := (syncItems sel api now db).db.sync_queue
          items := (syncItems sel api now db).db.items } := by
  simp only [syncItems]
  cases (sel db "item").isEmpty
  · cases h : api.itemsSync ((sel db "item").map toSyncPayload)
    · simp
    · simp only [Bool.false_eq_true, if_false, h]
      rw [foldl_applyItemEcho, foldl_markOperationSynced]
  · simp

/-- The bills drain only touches the bills table. -/
theorem syncBills_db_frame (bsel : BillSelFn) (api : Api) (db : Db) :
    (syncBills bsel api db).db = { db with bills := (syncBills bsel api db).db.bills } := by
  obtain ⟨q, c, i, b, inv, ud, hist, lst⟩ := db
  simp only [syncBills]
  cases ud with
  | none => rfl
  | some u =>
    cases hbe : (bsel ⟨q, c, i, b, inv, some u, hist, lst⟩).isEmpty
    · cases hres : api.billsSync ((bsel ⟨q, c, i, b, inv, some u, hist, lst⟩).map billToPayload) <;>
        simp [hbe, hres]
    · simp [hbe]

/-- One inventory loop step only touches the inventory table of the store. -/
theorem foldl_syncInventoryItem_db (api : Api) (l : List InventoryRow) (acc : InvAcc) :
    (l.foldl (syncInventoryItem api) acc).db
      = { acc.db with
          inventory_items := (l.foldl (syncInventoryItem api) acc).db.inventory_items } := by
  induction l generalizing acc with
  | nil => rfl
  | cons it l ih =>
    rw [List.foldl_cons, ih]
    cases hp : api.inventoryGetById it.id
    · simp only [syncInventoryItem, hp]
      cases hu : api.inventoryUpdate it.id (toInventoryPayload it) <;>
        simp [hu, markInventoryItemSynced]
    · simp only [syncInventoryItem, hp]
      cases hc : api.inventoryCreate (toInventoryPayload it) <;>
        simp [hc, markInventoryItemSynced]
    · simp [syncInventoryItem, hp]

/-- The inventory drain only touches the inventory table. -/
theorem syncInventory_db_frame (api : Api) (db : Db) :
    (syncInventory api db).db
      = { db with inventory_items := (syncInventory api db).db.inventory_items } := by
  simp only [syncInventory]
  cases h : (getUnsyncedInventoryItems db).isEmpty
  · simp only [h, Bool.false_eq_true, if_false]
    exact foldl_syncInventoryItem_db api (getUnsyncedInventoryItems db)
      { db := db, syncedCount := 0, errorCount := 0, calls := [] }
  · simp [h]

/-! ## Drain success and failure characterizations -/

/-- On a successful batch response the categories drain reports success with
the full batch length, marks exactly the batch ids synced (with `synced_at`
set), and issued exactly the one batch request. -/
theorem syncCategories_success (sel : SelFn) (api : Api) (now : String) (db : Db)
    (response : CategorySyncResponse)
    (hne : sel db "category" ≠ [])
    (hresp : api.categoriesSync ((sel db "category").map toSyncPayload) = some response) :
    (syncCategories sel api now db).result
        = { success := true, synced := (sel db "category").length } ∧
    (syncCategories sel api now db).db.sync_queue
        = db.sync_queue.map (fun r =>
            if r.id ∈ (sel db "category").map (fun o => o.id) then
              { r with synced := true, synced_at := some now }
            else r) ∧
    (syncCategories sel api now db).calls
        = [ApiCall.categoriesSync ((sel db "category").map toSyncPayload)] := by
  have hE : (sel db "category").isEmpty = false := by
    cases h : sel db "category"
    · exact absurd h hne
    · rfl
  simp only [syncCategories, hE, hresp, Bool.false_eq_true, if_false]
  refine ⟨trivial, ?_, trivial⟩
  rw [foldl_applyCategoryEcho, foldl_markOperationSynced]

/-- On a failed batch request the categories drain reports failure and leaves
the store untouched. -/
theorem syncCategories_failure (sel : SelFn) (api : Api) (now : String) (db : Db)
    (hne : sel db "category" ≠ [])
    (hresp : api.categoriesSync ((sel db "category").map toSyncPayload) = none) :
    syncCategories sel api now db
      = { result := { success := false, synced := 0 }, db := db,
          calls := [ApiCall.categoriesSync ((sel db "category").map toSyncPayload)] } := by
  have hE : (sel db "category").isEmpty = false := by
    cases h : sel db "category"
    · exact absurd h hne
    · rfl
  simp [syncCategories, hE, hresp]

/-- On a successful batch response the items drain reports success with the
full batch length, marks exactly the batch ids synced, and issued exactly the
one batch request. -/
theorem syncItems_success (sel : SelFn) (api : Api) (now : String) (db : Db)
    (response : ItemSyncResponse)
    (hne : sel db "item" ≠ [])
    (hresp : api.itemsSync ((sel db "item").map toSyncPayload) = some response) :
    (syncItems sel api now db).result
        = { success := true, synced := (sel db "item").length } ∧
    (syncItems sel api now db).db.sync_queue
        = db.sync_queue.map (fun r =>
            if r.id ∈ (sel db "item").map (fun o => o.id) then
              { r with synced := true, synced_at := some now }
            else r) ∧
    (syncItems sel api now db).calls
        = [ApiCall.itemsSync ((sel db "item").map toSyncPayload)] := by
  have hE : (sel db "item").isEmpty = false := by
    cases h : sel db "item"
    · exact absurd h hne
    · rfl
  simp only [syncItems, hE, hresp, Bool.false_eq_true, if_false]
  refine ⟨trivial, ?_, trivial⟩
  rw [foldl_applyItemEcho, foldl_markOperationSynced]

/-- On a failed batch request the items drain reports failure and leaves the
store untouched. -/
theorem syncItems_failure (sel : SelFn) (api : Api) (now : String) (db : Db)
    (hne : sel db "item" ≠ [])
    (hresp : api.itemsSync ((sel db "item").map toSyncPayload) = none) :
    syncItems sel api now db
      = { result := { success := false, synced := 0 }, db := db,
          calls := [ApiCall.itemsSync ((sel db "item").map toSyncPayload)] } := by
  have hE : (sel db "item").isEmpty = false := by
    cases h : sel db "item"
    · exact absurd h hne
    · rfl
  simp [syncItems, hE, hresp]

/-- Every row of a batch-marked queue that carries a batch id is marked. -/
theorem mem_marked_queue {l : List QueueRow} {ids : List Nat} {now : String} {r : QueueRow}
    (hr : r ∈ l.map (fun r0 =>
      if r0.id ∈ ids then { r0 with synced := true, synced_at := some now } else r0))
    (hid : r.id ∈ ids) : r.synced = true ∧ r.synced_at = some now := by
  obtain ⟨r0, hr0, heq⟩ := List.mem_map.mp hr
  by_cases h : r0.id ∈ ids
  · rw [if_pos h] at heq
    subst heq
    exact ⟨rfl, rfl⟩
  · rw [if_neg h] at heq
    subst heq
    exact absurd hid h

/-- C1: for the category (resp. item) drain of the sync cycle: if the batch
call to the remote sync endpoint succeeds, every queued operation included in
the batch is marked synced (`synced = true`, `synced_at` set to the marking
time); if the batch call fails, the drain reports failure and leaves the
store untouched, so zero operations of the batch are marked synced and every
one of them is still a pending row for the next cycle. -/
theorem category_item_batch_all_or_nothing (sel : SelFn) (api : Api) (now : String) (db : Db)
    (hcat : IsOrderedSelection db "category" (sel db "category"))
    (hitem : IsOrderedSelection db "item" (sel db "item")) :
    (∀ response, sel db "category" ≠ [] →
      api.categoriesSync ((sel db "category").map toSyncPayload) = some response →
      (syncCategories sel api now db).result
          = { success := true, synced := (sel db "category").length } ∧
      ∀ r ∈ (syncCategories sel api now db).db.sync_queue,
        r.id ∈ (sel db "category").map (fun o => o.id) →
        r.synced = true ∧ r.synced_at = some now) ∧
    (sel db "category" ≠ [] →
      api.categoriesSync ((sel db "category").map toSyncPayload) = none →
      (syncCategories sel api now db).result = { success := false, synced := 0 } ∧
      (syncCategories sel api now db).db = db ∧
      ∀ op ∈ sel db "category",
        op ∈ pendingRows (syncCategories sel api now db).db "category") ∧
    (∀ response, sel db "item" ≠ [] →
      api.itemsSync ((sel db "item").map toSyncPayload) = some response →
      (syncItems sel api now db).result
          = { success := true, synced := (sel db "item").length } ∧
      ∀ r ∈ (syncItems sel api now db).db.sync_queue,
        r.id ∈ (sel db "item").map (fun o => o.id) →
        r.synced = true ∧ r.synced_at = some now) ∧
    (sel db "item" ≠ [] →
      api.itemsSync ((sel db "item").map toSyncPayload) = none →
      (syncItems sel api now db).result = { success := false, synced := 0 } ∧
      (syncItems sel api now db).db = db ∧
      ∀ op ∈ sel db "item",
        op ∈ pendingRows (syncItems sel api now db).db "item") := by
  refine ⟨?_, ?_, ?_, ?_⟩
  · intro response hne hresp
    obtain ⟨hres, hq, -⟩ := syncCategories_success sel api now db response hne hresp
    exact ⟨hres, fun r hr hid => mem_marked_queue (hq ▸ hr) hid⟩
  · intro hne hresp
    have h := syncCategories_failure sel api now db hne hresp
    rw [h]
    exact ⟨rfl, rfl, fun op hop => (hcat.1.mem_iff).mp hop⟩
  · intro response hne hresp
    obtain ⟨hres, hq, -⟩ := syncItems_success sel api now db response hne hresp
    exact ⟨hres, fun r hr hid => mem_marked_queue (hq ▸ hr) hid⟩
  · intro hne hresp
    have h := syncItems_failure sel api now db hne hresp
    rw [h]
    exact ⟨rfl, rfl, fun op hop => (hitem.1.mem_iff).mp hop⟩

/-! ## Concrete evaluation kit used by witnesses -/

instance : DecidableRel createdLe :=
  fun a b => inferInstanceAs (Decidable (textLtb b.created_at.data a.created_at.data = false))

instance : DecidableRel billCreatedLe :=
  fun a b => inferInstanceAs (Decidable (textLtb b.created_at.data a.created_at.data = false))

/-- Query engine that returns the filtered rows in stored order (a legal
ordered selection whenever the store holds them sorted by `created_at`). -/
def filterSel : SelFn := fun db entityType => pendingRows db entityType

/-- Bills query engine that returns the filtered rows in stored order. -/
def filterBillSel : BillSelFn := fun db => (unsyncedBills db).take 50

/-- A pending category create operation. -/
def catOp : QueueRow :=
  { id := 1, operation_type := "create", entity_type := "category", entity_id := "c1"
  , data := "{}", timestamp := "2024-01-01T00:00:00.000Z", retry_count := 0
  , last_error := none, synced := false, synced_at := none
  , created_at := "2024-01-01T00:00:01.000Z" }

/-- A pending item create operation. -/
def itemOp : QueueRow :=
  { id := 2, operation_type := "create", entity_type := "item", entity_id := "i1"
  , data := "{}", timestamp := "2024-01-01T00:00:02.000Z", retry_count := 0
  , last_error := none, synced := false, synced_at := none
  , created_at := "2024-01-01T00:00:02.000Z" }

/-- Store with one pending category and one pending item operation and a
logged-in user. -/
def wDb : Db :=
  { sync_queue := [catOp, itemOp], categories := [], items := [], bills := []
  , inventory_items := []
  , user_data := some { token := "tok", user_id := "1", username := "u" }
  , sync_history := [], last_sync_time := none }

/-- Remote API on which every batch endpoint succeeds. -/
def okApi : Api :=
  { categoriesSync := fun p => some { synced := p.length, categories := [] }
  , itemsSync := fun p => some { synced := p.length, items := [] }
  , billsSync := fun p => some { synced := p.length }
  , inventoryGetById := fun _ => InvProbe.notFound
  , inventoryUpdate := fun _ _ => true
  , inventoryCreate := fun _ => true }

/-- Remote API on which every batch endpoint fails. -/
def downApi : Api :=
  { okApi with
    categoriesSync := fun _ => none
    itemsSync := fun _ => none
    billsSync := fun _ => none
    inventoryGetById := fun _ => InvProbe.requestError }

/-- Witness for C1 at the concrete store: with a working endpoint the single
pending category operation's batch reports one synced; with a failing items
endpoint the item drain reports failure and leaves the store untouched. -/
theorem category_item_batch_all_or_nothing_witness :
    (syncCategories filterSel okApi "2024-01-03T00:00:00.000Z" wDb).result
        = { success := true, synced := 1 } ∧
    (syncItems filterSel downApi "2024-01-03T00:00:00.000Z" wDb).result
        = { success := false, synced := 0 } ∧
    (syncItems filterSel downApi "2024-01-03T00:00:00.000Z" wDb).db = wDb := by
  have hOk := category_item_batch_all_or_nothing filterSel okApi
    "2024-01-03T00:00:00.000Z" wDb ⟨List.Perm.refl _, by decide⟩ ⟨List.Perm.refl _, by decide⟩
  have hDown := category_item_batch_all_or_nothing filterSel downApi
    "2024-01-03T00:00:00.000Z" wDb ⟨List.Perm.refl _, by decide⟩ ⟨List.Perm.refl _, by decide⟩
  have h1 := (hOk.1 { synced := 1, categories := [] } (by decide) (by rfl)).1
  have h2 := hDown.2.2.2 (by decide) (by rfl)
  exact ⟨h1, h2.1, h2.2.1⟩

/-! ## Queue upload order (C2) -/

/-- Whatever the endpoint outcome, a nonempty categories batch is submitted
as exactly one request carrying the selection in its order. -/
theorem syncCategories_calls (sel : SelFn) (api : Api) (now : String) (db : Db)
    (hne : sel db "category" ≠ []) :
    (syncCategories sel api now db).calls
      = [ApiCall.categoriesSync ((sel db "category").map toSyncPayload)] := by
  have hE : (sel db "category").isEmpty = false := by
    cases h : sel db "category"
    · exact absurd h hne
    · rfl
  simp only [syncCategories, hE, Bool.false_eq_true, if_false]
  cases api.categoriesSync ((sel db "category").map toSyncPayload) <;> rfl

/-- Whatever the endpoint outcome, a nonempty items batch is submitted as
exactly one request carrying the selection in its order. -/
theorem syncItems_calls (sel : SelFn) (api : Api) (now : String) (db : Db)
    (hne : sel db "item" ≠ []) :
    (syncItems sel api now db).calls
      = [ApiCall.itemsSync ((sel db "item").map toSyncPayload)] := by
  have hE : (sel db "item").isEmpty = false := by
    cases h : sel db "item"
    · exact absurd h hne
    · rfl
  simp only [syncItems, hE, Bool.false_eq_true, if_false]
  cases api.itemsSync ((sel db "item").map toSyncPayload) <;> rfl

/-- Any legal ordered selection is strictly increasing in operation id,
provided queue ids are unique and enqueue order is consistent: a row with a
smaller id was enqueued strictly earlier (`created_at` strictly smaller). -/
theorem selection_pairwise_id_lt {db : Db} {entityType : String} {ops : List QueueRow}
    (hord : IsOrderedSelection db entityType ops)
    (hids : (db.sync_queue.map (fun r => r.id)).Nodup)
    (hmono : ∀ a ∈ db.sync_queue, ∀ b ∈ db.sync_queue,
      a.id < b.id → textLt a.created_at b.created_at) :
    ops.Pairwise (fun a b => a.id < b.id) := by
  obtain ⟨hperm, hsort⟩ := hord
  have hmem : ∀ a ∈ ops, a ∈ db.sync_queue := fun a ha =>
    List.mem_of_mem_filter (hperm.mem_iff.mp ha)
  have hsub : (pendingRows db entityType).Sublist db.sync_queue := by
    simp only [pendingRows]
    exact List.filter_sublist _
  have hsubm : ((pendingRows db entityType).map (fun r => r.id)).Sublist
      (db.sync_queue.map (fun r => r.id)) := hsub.map (fun r : QueueRow => r.id)
  have hpend : ((pendingRows db entityType).map (fun r => r.id)).Nodup :=
    List.Nodup.sublist hsubm hids
  have hnd : (ops.map (fun r => r.id)).Nodup :=
    ((hperm.map (fun r => r.id)).nodup_iff).mpr hpend
  have hne : ops.Pairwise (fun a b => a.id ≠ b.id) := List.pairwise_map.mp hnd
  have hboth : ops.Pairwise (fun a b => createdLe a b ∧ a.id ≠ b.id) := hsort.and hne
  refine hboth.imp_of_mem ?_
  intro a b ha hb hab
  rcases hab with ⟨hle, hid⟩
  rcases Nat.lt_trichotomy a.id b.id with h | h | h
  · exact h
  · exact absurd h hid
  · exact Bool.noConfusion (hle.symm.trans (hmono b (hmem b hb) a (hmem a ha) h))

/-- C2 (amended): for categories and items, the pending batch a drain submits
is a single request in selection order, and the selection is strictly
ascending in operation id — hence exactly enqueue order — whenever enqueue
order is consistent (unique ids, a smaller id enqueued at a strictly earlier
`created_at`); ties in `created_at` carry no id-based guarantee. -/
theorem queue_upload_order (sel : SelFn) (api : Api) (now : String) (db : Db)
    (hids : (db.sync_queue.map (fun r => r.id)).Nodup)
    (hmono : ∀ a ∈ db.sync_queue, ∀ b ∈ db.sync_queue,
      a.id < b.id → textLt a.created_at b.created_at)
    (hcat : IsOrderedSelection db "category" (sel db "category"))
    (hitem : IsOrderedSelection db "item" (sel db "item")) :
    (sel db "category").Pairwise (fun a b => a.id < b.id) ∧
    (sel db "item").Pairwise (fun a b => a.id < b.id) ∧
    (sel db "category" ≠ [] →
      (syncCategories sel api now db).calls
        = [ApiCall.categoriesSync ((sel db "category").map toSyncPayload)]) ∧
    (sel db "item" ≠ [] →
      (syncItems sel api now db).calls
        = [ApiCall.itemsSync ((sel db "item").map toSyncPayload)]) :=
  ⟨selection_pairwise_id_lt hcat hids hmono,
   selection_pairwise_id_lt hitem hids hmono,
   fun hne => syncCategories_calls sel api now db hne,
   fun hne => syncItems_calls sel api now db hne⟩

/-- Witness for the amended C2 at the concrete store (distinct enqueue
times): the category batch is submitted in ascending id order. -/
theorem queue_upload_order_witness :
    (filterSel wDb "category").Pairwise (fun a b => a.id < b.id) ∧
    (syncCategories filterSel okApi "2024-01-03T00:00:00.000Z" wDb).calls
      = [ApiCall.categoriesSync [toSyncPayload catOp]] := by
  have h := queue_upload_order filterSel okApi "2024-01-03T00:00:00.000Z" wDb
    (by decide) (by decide)
    ⟨List.Perm.refl _, by decide⟩ ⟨List.Perm.refl _, by decide⟩
  exact ⟨h.1, h.2.2.1 (by decide)⟩

/-- First of two category operations enqueued in the same millisecond. -/
def tieOpA : QueueRow :=
  { id := 1, operation_type := "create", entity_type := "category", entity_id := "cA"
  , data := "{}", timestamp := "2024-01-01T00:00:00.000Z", retry_count := 0
  , last_error := none, synced := false, synced_at := none
  , created_at := "2024-01-01T00:00:00.000Z" }

/-- Second category operation carrying the same `created_at`. -/
def tieOpB : QueueRow :=
  { id := 2, operation_type := "update", entity_type := "category", entity_id := "cA"
  , data := "{}", timestamp := "2024-01-01T00:00:00.000Z", retry_count := 0
  , last_error := none, synced := false, synced_at := none
  , created_at := "2024-01-01T00:00:00.000Z" }

/-- Store holding the two same-millisecond operations. -/
def tieDb : Db :=
  { sync_queue := [tieOpA, tieOpB], categories := [], items := [], bills := []
  , inventory_items := [], user_data := none, sync_history := [], last_sync_time := none }

/-- Counterexample to C2 as stated: `ORDER BY created_at ASC` carries no id
tie-break, so for two operations enqueued in the same millisecond the legal
selection `[tieOpB, tieOpA]` (ids 2 then 1) violates "ties broken by
operation id ascending", and the drain submits the batch to the server in
that inverted order. -/
theorem queue_upload_order_counterexample :
    IsOrderedSelection tieDb "category" [tieOpB, tieOpA] ∧
    ¬ [tieOpB, tieOpA].Pairwise (fun a b => a.id ≤ b.id) ∧
    (syncCategories (fun _ _ => [tieOpB, tieOpA]) okApi "2024-01-02T00:00:00.000Z" tieDb).calls
      = [ApiCall.categoriesSync [toSyncPayload tieOpB, toSyncPayload tieOpA]] := by
  refine ⟨⟨by decide, by decide⟩, by decide, by decide⟩

/-! ## Retry bookkeeping on transient failure (C3) -/

/-- Counterexample to C3 as stated: after a failed category batch every
queued operation still has `retry_count = 0` and no `last_error` — nothing
increments the retry counter (the `updateRetryCount` helper is never called
by a drain). -/
theorem drain_failure_retry_count_counterexample :
    (syncCategories filterSel downApi "2024-01-03T00:00:00.000Z" wDb).result.success
        = false ∧
    (syncCategories filterSel downApi "2024-01-03T00:00:00.000Z" wDb).db.sync_queue.map
        (fun r => (r.retry_count, r.last_error))
      = [(0, none), (0, none)] ∧
    updateRetryCount wDb catOp.id "err"
      ≠ (syncCategories filterSel downApi "2024-01-03T00:00:00.000Z" wDb).db := by
  refine ⟨by decide, by decide, by decide⟩

/-- C3 (amended): when a category or item batch fails with a transient
request failure, every queued operation of the batch remains pending and is
contained in any legal selection of the next drain cycle, but the store is
left exactly as it was: `retryCount` is not incremented and no `lastError`
is recorded. -/
theorem drain_failure_keeps_batch_pending_unchanged (sel : SelFn) (api : Api)
    (now : String) (db : Db)
    (hcat : IsOrderedSelection db "category" (sel db "category"))
    (hitem : IsOrderedSelection db "item" (sel db "item")) :
    (sel db "category" ≠ [] →
      api.categoriesSync ((sel db "category").map toSyncPayload) = none →
      syncCategories sel api now db
          = { result := { success := false, synced := 0 }, db := db
            , calls := [ApiCall.categoriesSync ((sel db "category").map toSyncPayload)] } ∧
      ∀ op ∈ sel db "category", ∀ nextOps,
        IsOrderedSelection (syncCategories sel api now db).db "category" nextOps →
        op ∈ nextOps) ∧
    (sel db "item" ≠ [] →
      api.itemsSync ((sel db "item").map toSyncPayload) = none →
      syncItems sel api now db
          = { result := { success := false, synced := 0 }, db := db
            , calls := [ApiCall.itemsSync ((sel db "item").map toSyncPayload)] } ∧
      ∀ op ∈ sel db "item", ∀ nextOps,
        IsOrderedSelection (syncItems sel api now db).db "item" nextOps →
        op ∈ nextOps) := by
  constructor
  · intro hne hresp
    have h := syncCategories_failure sel api now db hne hresp
    refine ⟨h, ?_⟩
    intro op hop nextOps hnext
    rw [h] at hnext
    exact (hnext.1.mem_iff).mpr ((hcat.1.mem_iff).mp hop)
  · intro hne hresp
    have h := syncItems_failure sel api now db hne hresp
    refine ⟨h, ?_⟩
    intro op hop nextOps hnext
    rw [h] at hnext
    exact (hnext.1.mem_iff).mpr ((hitem.1.mem_iff).mp hop)

/-- Witness for the amended C3: the failed concrete category batch leaves the
store untouched and the operation is still selected on the next cycle. -/
theorem drain_failure_keeps_batch_pending_unchanged_witness :
    syncCategories filterSel downApi "2024-01-03T00:00:00.000Z" wDb
        = { result := { success := false, synced := 0 }, db := wDb
          , calls := [ApiCall.categoriesSync [toSyncPayload catOp]] } ∧
    catOp ∈ pendingRows wDb "category" ∧
    catOp ∈ filterSel (syncCategories filterSel downApi "2024-01-03T00:00:00.000Z" wDb).db
      "category" := by
  have h := drain_failure_keeps_batch_pending_unchanged filterSel downApi
    "2024-01-03T00:00:00.000Z" wDb ⟨List.Perm.refl _, by decide⟩ ⟨List.Perm.refl _, by decide⟩
  have h0 := h.1 (by decide) rfl
  refine ⟨h0.1, by decide, ?_⟩
  exact h0.2 catOp (by decide)
    (filterSel (syncCategories filterSel downApi "2024-01-03T00:00:00.000Z" wDb).db "category")
    ⟨List.Perm.refl _, by decide⟩

/-! ## Offline entry guard (C7) -/

/-- C7: invoked while the network status is offline, the sync cycle performs
no drain (the store is untouched and no network request is issued) and
returns `success = false` with all four per-entity synced counts zero. -/
theorem syncAll_offline_guard (sel : SelFn) (bsel : BillSelFn) (api : Api)
    (fmt : String → String) (now : String) (db : Db) :
    syncAll sel bsel api fmt false now db
      = { result := { success := false, categoriesSynced := 0, itemsSynced := 0
                    , billsSynced := 0, inventorySynced := 0 }
        , db := db, calls := [] } := rfl

/-! ## Preservation lemmas for the drain chain -/

/-- Fields of the store the categories drain never changes. -/
theorem syncCategories_preserves (sel : SelFn) (api : Api) (now : String) (db : Db) :
    (syncCategories sel api now db).db.bills = db.bills ∧
    (syncCategories sel api now db).db.inventory_items = db.inventory_items ∧
    (syncCategories sel api now db).db.user_data = db.user_data ∧
    (syncCategories sel api now db).db.sync_history = db.sync_history ∧
    (syncCategories sel api now db).db.last_sync_time = db.last_sync_time := by
  refine ⟨?_, ?_, ?_, ?_, ?_⟩ <;> rw [syncCategories_db_frame]

/-- Fields of the store the items drain never changes. -/
theorem syncItems_preserves (sel : SelFn) (api : Api) (now : String) (db : Db) :
    (syncItems sel api now db).db.bills = db.bills ∧
    (syncItems sel api now db).db.inventory_items = db.inventory_items ∧
    (syncItems sel api now db).db.user_data = db.user_data ∧
    (syncItems sel api now db).db.sync_history = db.sync_history ∧
    (syncItems sel api now db).db.last_sync_time = db.last_sync_time := by
  refine ⟨?_, ?_, ?_, ?_, ?_⟩ <;> rw [syncItems_db_frame]

/-- Fields of the store the bills drain never changes. -/
theorem syncBills_preserves (bsel : BillSelFn) (api : Api) (db : Db) :
    (syncBills bsel api db).db.sync_queue = db.sync_queue ∧
    (syncBills bsel api db).db.inventory_items = db.inventory_items ∧
    (syncBills bsel api db).db.user_data = db.user_data ∧
    (syncBills bsel api db).db.sync_history = db.sync_history ∧
    (syncBills bsel api db).db.last_sync_time = db.last_sync_time := by
  refine ⟨?_, ?_, ?_, ?_, ?_⟩ <;> rw [syncBills_db_frame]

/-- Fields of the store the inventory drain never changes. -/
theorem syncInventory_preserves (api : Api) (db : Db) :
    (syncInventory api db).db.sync_queue = db.sync_queue ∧
    (syncInventory api db).db.bills = db.bills ∧
    (syncInventory api db).db.user_data = db.user_data ∧
    (syncInventory api db).db.sync_history = db.sync_history ∧
    (syncInventory api db).db.last_sync_time = db.last_sync_time := by
  refine ⟨?_, ?_, ?_, ?_, ?_⟩ <;> rw [syncInventory_db_frame]

/-! ## Sync history recording (C4) -/

/-- The history write prepends the new entry and keeps the most recent 20. -/
theorem saveSyncToHistory_spec (fmt : String → String) (now : String)
    (c i b v : Nat) (db : Db) :
    (saveSyncToHistory fmt now c i b v db).sync_history
        = (mkSyncHistoryEntry fmt now c i b v :: db.sync_history).take 20 ∧
    (saveSyncToHistory fmt now c i b v db).last_sync_time = db.last_sync_time := by
  constructor
  · simp only [saveSyncToHistory]
    by_cases hl : (mkSyncHistoryEntry fmt now c i b v :: db.sync_history).length > 20
    · simp [hl]
    · simp [hl, List.take_of_length_le (Nat.le_of_not_lt hl)]
  · rfl

/-- C4 (amended): after an online sync cycle, the history entry carrying the
per-entity counts (nonzero ones listed) is prepended — capped at the 20 most
recent — and `last_sync_time` is set to the cycle time, exactly when the
cycle's overall success flag is true and the combined synced count is
positive; in every other case (in particular a cycle that synced work but had
a failed sub-drain) history and marker are unchanged. -/
theorem syncAll_history_iff (sel : SelFn) (bsel : BillSelFn) (api : Api)
    (fmt : String → String) (now : String) (db : Db) :
    ((syncAll sel bsel api fmt true now db).result.success = true ∧
      0 < (syncAll sel bsel api fmt true now db).result.categoriesSynced
        + (syncAll sel bsel api fmt true now db).result.itemsSynced
        + (syncAll sel bsel api fmt true now db).result.billsSynced
        + (syncAll sel bsel api fmt true now db).result.inventorySynced →
      (syncAll sel bsel api fmt true now db).db.sync_history
        = (mkSyncHistoryEntry fmt now
            (syncAll sel bsel api fmt true now db).result.categoriesSynced
            (syncAll sel bsel api fmt true now db).result.itemsSynced
            (syncAll sel bsel api fmt true now db).result.billsSynced
            (syncAll sel bsel api fmt true now db).result.inventorySynced
            :: db.sync_history).take 20 ∧
      (syncAll sel bsel api fmt true now db).db.last_sync_time = some now) ∧
    (¬ ((syncAll sel bsel api fmt true now db).result.success = true ∧
        0 < (syncAll sel bsel api fmt true now db).result.categoriesSynced
          + (syncAll sel bsel api fmt true now db).result.itemsSynced
          + (syncAll sel bsel api fmt true now db).result.billsSynced
          + (syncAll sel bsel api fmt true now db).result.inventorySynced) →
      (syncAll sel bsel api fmt true now db).db.sync_history = db.sync_history ∧
      (syncAll sel bsel api fmt true now db).db.last_sync_time = db.last_sync_time) := by
  simp only [syncAll, Bool.not_true, Bool.false_eq_true, if_false]
  generalize hC : syncCategories sel api now db = C
  generalize hI : syncItems sel api now C.db = I
  generalize hB : syncBills bsel api I.db = B
  generalize hV : syncInventory api B.db = V
  have pC := syncCategories_preserves sel api now db
  rw [hC] at pC
  have pI := syncItems_preserves sel api now C.db
  rw [hI] at pI
  have pB := syncBills_preserves bsel api I.db
  rw [hB] at pB
  have pV := syncInventory_preserves api B.db
  rw [hV] at pV
  have hist4 : V.db.sync_history = db.sync_history := by
    rw [pV.2.2.2.1, pB.2.2.2.1, pI.2.2.2.1, pC.2.2.2.1]
  have last4 : V.db.last_sync_time = db.last_sync_time := by
    rw [pV.2.2.2.2, pB.2.2.2.2, pI.2.2.2.2, pC.2.2.2.2]
  constructor
  · rintro ⟨hs, hsum⟩
    have hcond : ((C.result.success && I.result.success &&
        B.result.success && V.result.success) &&
        (decide (0 < C.result.synced) || decide (0 < I.result.synced) ||
         decide (0 < B.result.synced) || decide (0 < V.result.synced))) = true := by
      rw [hs]
      simp only [Bool.true_and, Bool.or_eq_true, decide_eq_true_eq]
      omega
    rw [hcond]
    refine ⟨?_, rfl⟩
    have hsv := (saveSyncToHistory_spec fmt now C.result.synced I.result.synced
      B.result.synced V.result.synced V.db).1
    rw [hist4] at hsv
    exact hsv
  · intro h
    have hcond : ((C.result.success && I.result.success &&
        B.result.success && V.result.success) &&
        (decide (0 < C.result.synced) || decide (0 < I.result.synced) ||
         decide (0 < B.result.synced) || decide (0 < V.result.synced))) = false := by
      rcases Bool.eq_false_or_eq_true
        (C.result.success && I.result.success && B.result.success && V.result.success)
        with hs | hs
      · have hsum : C.result.synced + I.result.synced + B.result.synced
            + V.result.synced = 0 := by
          by_contra hne
          exact h ⟨hs, by omega⟩
        have e1 : C.result.synced = 0 := by omega
        have e2 : I.result.synced = 0 := by omega
        have e3 : B.result.synced = 0 := by omega
        have e4 : V.result.synced = 0 := by omega
        simp [hs, e1, e2, e3, e4]
      · rw [hs]
        rfl
    rw [hcond]
    exact ⟨hist4, last4⟩

/-- Store with pending work but no stored user data: the category batch
succeeds, the bills drain fails its guard. -/
def noUserDb : Db :=
  { sync_queue := [catOp, itemOp], categories := [], items := [], bills := []
  , inventory_items := [], user_data := none, sync_history := [], last_sync_time := none }

/-- Counterexample to C4 as stated: a cycle whose combined synced count is 2
(categories and items synced) but whose bills drain failed appends no history
entry and leaves `last_sync_time` unset. -/
theorem syncAll_history_counterexample :
    (syncAll filterSel filterBillSel okApi (fun s => s) true
        "2024-01-03T00:00:00.000Z" noUserDb).result.success = false ∧
    0 < (syncAll filterSel filterBillSel okApi (fun s => s) true
        "2024-01-03T00:00:00.000Z" noUserDb).result.categoriesSynced
      + (syncAll filterSel filterBillSel okApi (fun s => s) true
        "2024-01-03T00:00:00.000Z" noUserDb).result.itemsSynced
      + (syncAll filterSel filterBillSel okApi (fun s => s) true
        "2024-01-03T00:00:00.000Z" noUserDb).result.billsSynced
      + (syncAll filterSel filterBillSel okApi (fun s => s) true
        "2024-01-03T00:00:00.000Z" noUserDb).result.inventorySynced ∧
    (syncAll filterSel filterBillSel okApi (fun s => s) true
        "2024-01-03T00:00:00.000Z" noUserDb).db.sync_history = [] ∧
    (syncAll filterSel filterBillSel okApi (fun s => s) true
        "2024-01-03T00:00:00.000Z" noUserDb).db.last_sync_time = none := by
  refine ⟨by decide, by decide, by decide, by decide⟩

/-- Witness for the amended C4: the successful concrete cycle (two batches
synced) prepends exactly one history entry and sets the marker. -/
theorem syncAll_history_iff_witness :
    (syncAll filterSel filterBillSel okApi (fun s => s) true
        "2024-01-03T00:00:00.000Z" wDb).db.sync_history
      = (mkSyncHistoryEntry (fun s => s) "2024-01-03T00:00:00.000Z"
          (syncAll filterSel filterBillSel okApi (fun s => s) true
            "2024-01-03T00:00:00.000Z" wDb).result.categoriesSynced
          (syncAll filterSel filterBillSel okApi (fun s => s) true
            "2024-01-03T00:00:00.000Z" wDb).result.itemsSynced
          (syncAll filterSel filterBillSel okApi (fun s => s) true
            "2024-01-03T00:00:00.000Z" wDb).result.billsSynced
          (syncAll filterSel filterBillSel okApi (fun s => s) true
            "2024-01-03T00:00:00.000Z" wDb).result.inventorySynced
          :: wDb.sync_history).take 20 ∧
    (syncAll filterSel filterBillSel okApi (fun s => s) true
        "2024-01-03T00:00:00.000Z" wDb).db.last_sync_time
      = some "2024-01-03T00:00:00.000Z" :=
  (syncAll_history_iff filterSel filterBillSel okApi (fun s => s)
      "2024-01-03T00:00:00.000Z" wDb).1 ⟨by decide, by decide⟩

/-! ## Entity independence (C8) -/

/-- Batch marking leaves the pending rows of an untouched entity type alone:
if no row of type `et` carries a marked id, the `et`-pending filter is
unchanged. -/
theorem filter_map_markIf (l : List QueueRow) (ids : List Nat) (now : String) (et : String)
    (hdisj : ∀ r ∈ l, r.entity_type = et → r.id ∉ ids) :
    (l.map (fun r => if r.id ∈ ids then
        { r with synced := true, synced_at := some now } else r)).filter
          (fun r => r.entity_type == et && r.synced == false)
      = l.filter (fun r => r.entity_type == et && r.synced == false) := by
  induction l with
  | nil => rfl
  | cons r l ih =>
    have ih' := ih (fun x hx hxe => hdisj x (List.mem_cons_of_mem _ hx) hxe)
    simp only [List.map_cons, List.filter_cons]
    by_cases hid : r.id ∈ ids
    · have hret : r.entity_type ≠ et := fun he => hdisj r (List.mem_cons_self _ _) he hid
      have hb : (r.entity_type == et) = false := by
        simp [hret]
      rw [if_pos hid]
      simp only [hb, Bool.false_and, Bool.false_eq_true, if_false]
      exact ih'
    · rw [if_neg hid]
      cases hp : (r.entity_type == et && r.synced == false)
      · simp only [hp, Bool.false_eq_true, if_false]
        exact ih'
      · simp only [hp, if_true]
        rw [ih']

/-- The categories drain does not change the pending rows of any other
entity type (given unique queue ids). -/
theorem syncCategories_preserves_pending (sel : SelFn) (api : Api) (now : String)
    (db : Db) (et : String)
    (hcat : IsOrderedSelection db "category" (sel db "category"))
    (hnodup : (db.sync_queue.map (fun r => r.id)).Nodup)
    (hne : et ≠ "category") :
    pendingRows (syncCategories sel api now db).db et = pendingRows db et := by
  by_cases hne2 : sel db "category" = []
  · simp [syncCategories, hne2]
  · cases hresp : api.categoriesSync ((sel db "category").map toSyncPayload) with
    | none => rw [syncCategories_failure sel api now db hne2 hresp]
    | some response =>
      have hq := (syncCategories_success sel api now db response hne2 hresp).2.1
      simp only [pendingRows]
      rw [hq]
      apply filter_map_markIf
      intro r hr hret hmem
      obtain ⟨o, ho, hid⟩ := List.mem_map.mp hmem
      have hopend : o ∈ pendingRows db "category" := (hcat.1.mem_iff).mp ho
      have hoq : o ∈ db.sync_queue := List.mem_of_mem_filter hopend
      have hocat : o.entity_type = "category" := by
        have hp := List.of_mem_filter hopend
        simp only [Bool.and_eq_true, beq_iff_eq] at hp
        exact hp.1
      have heq : o = r := List.inj_on_of_nodup_map hnodup hoq hr hid
      rw [heq, hret] at hocat
      exact hne hocat

/-- On a successful batch response the bills drain reports success with the
batch length, marks the selected bill ids synced, and issued exactly the one
batch request. -/
theorem syncBills_success (bsel : BillSelFn) (api : Api) (db : Db) (u : AuthData)
    (response : BillSyncResponse)
    (hud : db.user_data = some u)
    (hne : bsel db ≠ [])
    (hresp : api.billsSync ((bsel db).map billToPayload) = some response) :
    (syncBills bsel api db).result = { success := true, synced := (bsel db).length } ∧
    (syncBills bsel api db).calls = [ApiCall.billsSync ((bsel db).map billToPayload)] ∧
    (syncBills bsel api db).db.bills
      = db.bills.map (fun b =>
          if ((bsel db).map (fun x => x.id)).contains b.id then
            { b with is_synced := true }
          else b) := by
  have hE : (bsel db).isEmpty = false := by
    cases h : bsel db
    · exact absurd h hne
    · rfl
  simp only [syncBills, hud, hE, hresp, Bool.false_eq_true, if_false]
  exact ⟨trivial, trivial, trivial⟩

/-- With nothing unsynced, the inventory drain is a no-op reporting success. -/
theorem syncInventory_empty (api : Api) (db : Db)
    (h : getUnsyncedInventoryItems db = []) :
    syncInventory api db
      = { result := { success := true, synced := 0 }, db := db, calls := [] } := by
  simp [syncInventory, h]

/-! ## Order facts for the TEXT comparison and globally valid query engines -/

theorem textLtb_trans : ∀ (x y z : List Char),
    textLtb x y = true → textLtb y z = true → textLtb x z = true
  | [], [], _ => fun h _ => by simp [textLtb] at h
  | [], _ :: _, [] => fun _ h => by simp [textLtb] at h
  | [], _ :: _, _ :: _ => fun _ _ => rfl
  | _ :: _, [], _ => fun h _ => by simp [textLtb] at h
  | _ :: _, _ :: _, [] => fun _ h => by simp [textLtb] at h
  | a :: as, b :: bs, c :: cs => fun h1 h2 => by
    simp only [textLtb] at h1 h2 ⊢
    by_cases hab : a = b
    · subst hab
      simp only [if_pos rfl] at h1
      by_cases hac : a = c
      · subst hac
        simp only [if_pos rfl] at h2 ⊢
        exact textLtb_trans as bs cs h1 h2
      · rw [if_neg hac] at h2 ⊢
        exact h2
    · rw [if_neg hab] at h1
      have hab' : a < b := of_decide_eq_true h1
      by_cases hbc : b = c
      · subst hbc
        rw [if_neg hab]
        exact h1
      · rw [if_neg hbc] at h2
        have hbc' : b < c := of_decide_eq_true h2
        have hac' : a < c := lt_trans hab' hbc'
        have hac : a ≠ c := fun he => absurd (he ▸ hac') (lt_irrefl c)
        rw [if_neg hac]
        exact decide_eq_true hac'

theorem textLtb_asymm : ∀ (x y : List Char), textLtb x y = true → textLtb y x = false
  | [], [] => fun h => by simp [textLtb] at h
  | [], _ :: _ => fun _ => rfl
  | _ :: _, [] => fun h => by simp [textLtb] at h
  | a :: as, b :: bs => fun h => by
    simp only [textLtb] at h ⊢
    by_cases hab : a = b
    · subst hab
      simp only [if_pos rfl] at h ⊢
      exact textLtb_asymm as bs h
    · rw [if_neg hab] at h
      rw [if_neg (fun he => hab he.symm)]
      exact decide_eq_false (lt_asymm (of_decide_eq_true h))

theorem textLtb_antisymm : ∀ (x y : List Char),
    textLtb x y = false → textLtb y x = false → x = y
  | [], [] => fun _ _ => rfl
  | [], _ :: _ => fun h _ => by simp [textLtb] at h
  | _ :: _, [] => fun _ h => by simp [textLtb] at h
  | a :: as, b :: bs => fun h1 h2 => by
    simp only [textLtb] at h1 h2
    by_cases hab : a = b
    · subst hab
      simp only [if_pos rfl] at h1 h2
      rw [textLtb_antisymm as bs h1 h2]
    · rw [if_neg hab] at h1
      rw [if_neg (fun he => hab he.symm)] at h2
      rcases lt_or_gt_of_ne hab with h | h
      · exact absurd h (of_decide_eq_false h1)
      · exact absurd h (of_decide_eq_false h2)

instance : IsTotal QueueRow createdLe :=
  ⟨fun a b => by
    unfold createdLe
    cases h : textLtb b.created_at.data a.created_at.data
    · exact Or.inl rfl
    · exact Or.inr (textLtb_asymm _ _ h)⟩

instance : IsTrans QueueRow createdLe :=
  ⟨fun a b c hab hbc => by
    unfold createdLe at hab hbc ⊢
    cases hca : textLtb c.created_at.data a.created_at.data
    · rfl
    · cases hbc2 : textLtb b.created_at.data c.created_at.data
      · have hbceq := textLtb_antisymm _ _ hbc2 hbc
        rw [hbceq] at hab
        exact Bool.noConfusion (hab.symm.trans hca)
      · have := textLtb_trans _ _ _ hbc2 hca
        exact Bool.noConfusion (hab.symm.trans this)⟩

instance : IsTotal BillRow billCreatedLe :=
  ⟨fun a b => by
    unfold billCreatedLe
    cases h : textLtb b.created_at.data a.created_at.data
    · exact Or.inl rfl
    · exact Or.inr (textLtb_asymm _ _ h)⟩

instance : IsTrans BillRow billCreatedLe :=
  ⟨fun a b c hab hbc => by
    unfold billCreatedLe at hab hbc ⊢
    cases hca : textLtb c.created_at.data a.created_at.data
    · rfl
    · cases hbc2 : textLtb b.created_at.data c.created_at.data
      · have hbceq := textLtb_antisymm _ _ hbc2 hbc
        rw [hbceq] at hab
        exact Bool.noConfusion (hab.symm.trans hca)
      · have := textLtb_trans _ _ _ hbc2 hca
        exact Bool.noConfusion (hab.symm.trans this)⟩

/-- A query engine legal on every store: sort the matching rows by
`created_at`. -/
def sortSel : SelFn := fun db entityType =>
  List.insertionSort createdLe (pendingRows db entityType)

/-- The sorting query engine is a valid ordered selection everywhere. -/
theorem validSel_sortSel : ValidSel sortSel := fun db entityType =>
  ⟨List.perm_insertionSort createdLe (pendingRows db entityType),
   List.sorted_insertionSort createdLe (pendingRows db entityType)⟩

/-- A bills query engine legal on every store: sort then apply the LIMIT. -/
def sortBillSel : BillSelFn := fun db =>
  (List.insertionSort billCreatedLe (unsyncedBills db)).take 50

/-- The sorting bills query engine is a valid selection everywhere. -/
theorem validBillSel_sortBillSel : ValidBillSel sortBillSel := fun db =>
  ⟨List.insertionSort billCreatedLe (unsyncedBills db),
   List.perm_insertionSort billCreatedLe (unsyncedBills db),
   List.sorted_insertionSort billCreatedLe (unsyncedBills db), rfl⟩

/-- C8: with a forced failure of the items batch (in a cycle that has a
pending item batch, a logged-in user, at least one unsynced bill, a working
bills endpoint and nothing unsynced in inventory), the bills and inventory
drains still run — the bills batch request is issued and its bills counted
synced — no item operation is marked synced (the pending item rows are
unchanged), and the cycle's overall success flag equals the conjunction of
the four per-entity sub-results, hence false. -/
theorem entity_independence (sel : SelFn) (bsel : BillSelFn) (api : Api)
    (fmt : String → String) (now : String) (db : Db) (u : AuthData)
    (hval : ValidSel sel) (hbval : ValidBillSel bsel)
    (hnodup : (db.sync_queue.map (fun r => r.id)).Nodup)
    (hfail : ∀ p, api.itemsSync p = none)
    (hud : db.user_data = some u)
    (hbapi : ∀ p, (api.billsSync p).isSome = true)
    (hbills : unsyncedBills db ≠ [])
    (hinv : getUnsyncedInventoryItems db = [])
    (hpend : pendingRows db "item" ≠ []) :
    (syncAll sel bsel api fmt true now db).result.success
        = ((syncCategories sel api now db).result.success &&
           (syncItems sel api now (syncCategories sel api now db).db).result.success &&
           (syncBills bsel api
             (syncItems sel api now (syncCategories sel api now db).db).db).result.success &&
           (syncInventory api (syncBills bsel api
             (syncItems sel api now (syncCategories sel api now db).db).db).db).result.success) ∧
    (syncAll sel bsel api fmt true now db).result.success = false ∧
    (syncAll sel bsel api fmt true now db).result.itemsSynced = 0 ∧
    pendingRows (syncAll sel bsel api fmt true now db).db "item" = pendingRows db "item" ∧
    0 < (syncAll sel bsel api fmt true now db).result.billsSynced ∧
    (∃ payload, ApiCall.billsSync payload ∈ (syncAll sel bsel api fmt true now db).calls) := by
  simp only [syncAll, Bool.not_true, Bool.false_eq_true, if_false]
  generalize hC : syncCategories sel api now db = C
  generalize hI : syncItems sel api now C.db = I
  generalize hB : syncBills bsel api I.db = B
  generalize hV : syncInventory api B.db = V
  have pC := syncCategories_preserves sel api now db
  rw [hC] at pC
  have hCpend := syncCategories_preserves_pending sel api now db "item"
    (hval db "category") hnodup (by decide)
  rw [hC] at hCpend
  have hpermI := (hval C.db "item").1
  rw [hCpend] at hpermI
  have hselitem : sel C.db "item" ≠ [] := by
    intro h0
    rw [h0] at hpermI
    exact hpend hpermI.symm.eq_nil
  have hIfail := syncItems_failure sel api now C.db hselitem (hfail _)
  rw [hI] at hIfail
  have hIdb : I.db = C.db := by rw [hIfail]
  have hIsuccess : I.result.success = false := by rw [hIfail]
  have hIsynced : I.result.synced = 0 := by rw [hIfail]
  have hudI : I.db.user_data = some u := by rw [hIdb, pC.2.2.1, hud]
  have hbillsI : unsyncedBills I.db = unsyncedBills db := by
    simp only [unsyncedBills]
    rw [hIdb, pC.1]
  have hbne : bsel I.db ≠ [] := by
    obtain ⟨full, hfp, hfs, hftake⟩ := hbval I.db
    intro h0
    have hlen : (bsel I.db).length = min 50 full.length := by
      rw [hftake, List.length_take]
    rw [h0] at hlen
    have hfl : full.length = (unsyncedBills I.db).length := hfp.length_eq
    rw [hbillsI] at hfl
    have hpos : 0 < (unsyncedBills db).length := List.length_pos.mpr hbills
    simp only [List.length_nil] at hlen
    omega
  obtain ⟨respB, hrespB⟩ :=
    Option.isSome_iff_exists.mp (hbapi ((bsel I.db).map billToPayload))
  have hBsucc := syncBills_success bsel api I.db u respB hudI hbne hrespB
  rw [hB] at hBsucc
  have hBsynced : B.result.synced = (bsel I.db).length := by rw [hBsucc.1]
  have hBpos : 0 < B.result.synced := by
    rw [hBsynced]
    exact List.length_pos.mpr hbne
  have pB := syncBills_preserves bsel api I.db
  rw [hB] at pB
  have hinvB : getUnsyncedInventoryItems B.db = [] := by
    simp only [getUnsyncedInventoryItems] at hinv ⊢
    rw [pB.2.1, hIdb, pC.2.1]
    exact hinv
  have hVeq := syncInventory_empty api B.db hinvB
  rw [hV] at hVeq
  have hVdb : V.db = B.db := by rw [hVeq]
  have hsucc : (C.result.success && I.result.success &&
      B.result.success && V.result.success) = false := by
    rw [hIsuccess]
    simp
  refine ⟨trivial, hsucc, hIsynced, ?_, hBpos, ?_⟩
  · rw [hsucc]
    simp only [Bool.false_and, Bool.false_eq_true, if_false]
    simp only [pendingRows] at hCpend ⊢
    rw [hVdb, pB.1, hIdb]
    exact hCpend
  · refine ⟨(bsel I.db).map billToPayload, ?_⟩
    rw [show B.calls = [ApiCall.billsSync ((bsel I.db).map billToPayload)] from hBsucc.2.1]
    simp [List.mem_append]

/-- An unsynced local bill used by concrete evaluations. -/
def sampleBill : BillRow :=
  { id := "b1", invoice_number := some "INV-1", bill_number := "B-1"
  , billing_mode := some "gst", restaurant_name := some "R", address := some "A"
  , gstin := none, fssai_license := none, bill_date := some "2024-01-01"
  , customer_name := none, customer_phone := none, items := "[]"
  , subtotal := 100, discount_amount := some 0, discount_percentage := some 0
  , cgst_amount := some 0, sgst_amount := some 0, igst_amount := some 0
  , total_tax := some 0, total_amount := 100, payment_mode := some "cash"
  , payment_method := none, payment_reference := none, amount_paid := some 100
  , change_amount := some 0, notes := none, device_id := none, vendor_id := none
  , is_synced := false, created_at := "2024-01-01T00:00:03.000Z"
  , updated_at := "2024-01-01T00:00:03.000Z" }

/-- Store with a pending category and item operation, an unsynced bill, a
logged-in user and an empty inventory. -/
def indDb : Db := { wDb with bills := [sampleBill] }

/-- Remote API that succeeds everywhere except the items batch endpoint. -/
def failItemsApi : Api := { okApi with itemsSync := fun _ => none }

/-- Witness for C8 at the concrete store: the failed items batch leaves the
bill drain running (one bill synced) and the overall flag false. -/
theorem entity_independence_witness :
    (syncAll sortSel sortBillSel failItemsApi (fun s => s) true
        "2024-01-03T00:00:00.000Z" indDb).result.success
        = ((syncCategories sortSel failItemsApi "2024-01-03T00:00:00.000Z" indDb).result.success &&
           (syncItems sortSel failItemsApi "2024-01-03T00:00:00.000Z"
             (syncCategories sortSel failItemsApi "2024-01-03T00:00:00.000Z" indDb).db).result.success &&
           (syncBills sortBillSel failItemsApi
             (syncItems sortSel failItemsApi "2024-01-03T00:00:00.000Z"
               (syncCategories sortSel failItemsApi "2024-01-03T00:00:00.000Z" indDb).db).db).result.success &&
           (syncInventory failItemsApi (syncBills sortBillSel failItemsApi
             (syncItems sortSel failItemsApi "2024-01-03T00:00:00.000Z"
               (syncCategories sortSel failItemsApi "2024-01-03T00:00:00.000Z" indDb).db).db).db).result.success) ∧
    (syncAll sortSel sortBillSel failItemsApi (fun s => s) true
        "2024-01-03T00:00:00.000Z" indDb).result.success = false ∧
    (syncAll sortSel sortBillSel failItemsApi (fun s => s) true
        "2024-01-03T00:00:00.000Z" indDb).result.itemsSynced = 0 ∧
    pendingRows (syncAll sortSel sortBillSel failItemsApi (fun s => s) true
        "2024-01-03T00:00:00.000Z" indDb).db "item" = pendingRows indDb "item" ∧
    0 < (syncAll sortSel sortBillSel failItemsApi (fun s => s) true
        "2024-01-03T00:00:00.000Z" indDb).result.billsSynced ∧
    (∃ payload, ApiCall.billsSync payload ∈ (syncAll sortSel sortBillSel failItemsApi
        (fun s => s) true "2024-01-03T00:00:00.000Z" indDb).calls) :=
  entity_independence sortSel sortBillSel failItemsApi (fun s => s)
    "2024-01-03T00:00:00.000Z" indDb { token := "tok", user_id := "1", username := "u" }
    validSel_sortSel validBillSel_sortBillSel (by decide) (fun _ => rfl) rfl
    (fun _ => rfl) (by decide) rfl (by decide)

/-! ## Bills drain user-data guard (C10) -/

/-- With nothing pending, the categories drain is a no-op reporting success. -/
theorem syncCategories_empty (sel : SelFn) (api : Api) (now : String) (db : Db)
    (h : sel db "category" = []) :
    syncCategories sel api now db
      = { result := { success := true, synced := 0 }, db := db, calls := [] } := by
  simp [syncCategories, h]

/-- With nothing pending, the items drain is a no-op reporting success. -/
theorem syncItems_empty (sel : SelFn) (api : Api) (now : String) (db : Db)
    (h : sel db "item" = []) :
    syncItems sel api now db
      = { result := { success := true, synced := 0 }, db := db, calls := [] } := by
  simp [syncItems, h]

/-- C10: with no stored user data the bills drain returns
`{success := false, synced := 0}` without issuing any request or touching the
store; consequently an online cycle in which nothing at all is pending still
reports overall `success = false` with all counts zero. -/
theorem no_user_data_fails_cycle (sel : SelFn) (bsel : BillSelFn) (api : Api)
    (fmt : String → String) (now : String) (db : Db)
    (hud : db.user_data = none) :
    syncBills bsel api db
        = { result := { success := false, synced := 0 }, db := db, calls := [] } ∧
    (ValidSel sel →
      pendingRows db "category" = [] →
      pendingRows db "item" = [] →
      getUnsyncedInventoryItems db = [] →
      syncAll sel bsel api fmt true now db
        = { result := { success := false, categoriesSynced := 0, itemsSynced := 0
                      , billsSynced := 0, inventorySynced := 0 }
          , db := db, calls := [] }) := by
  have hbills : syncBills bsel api db
      = { result := { success := false, synced := 0 }, db := db, calls := [] } := by
    simp [syncBills, hud]
  refine ⟨hbills, ?_⟩
  intro hval hcat0 hitem0 hinv0
  have hcs : sel db "category" = [] := by
    have hp := (hval db "category").1
    rw [hcat0] at hp
    exact hp.eq_nil
  have his : sel db "item" = [] := by
    have hp := (hval db "item").1
    rw [hitem0] at hp
    exact hp.eq_nil
  have hC := syncCategories_empty sel api now db hcs
  have hI := syncItems_empty sel api now db his
  have hV := syncInventory_empty api db hinv0
  simp only [syncAll, Bool.not_true, Bool.false_eq_true, if_false, hC]
  simp only [hI, hbills, hV]
  simp

/-- Store with no user data and nothing pending anywhere. -/
def emptyNoUserDb : Db :=
  { sync_queue := [], categories := [], items := [], bills := []
  , inventory_items := [], user_data := none, sync_history := [], last_sync_time := none }

/-- Witness for C10 at the empty logged-out store: the bills drain aborts and
the whole cycle reports failure with zero counts and no requests. -/
theorem no_user_data_fails_cycle_witness :
    syncBills sortBillSel okApi emptyNoUserDb
        = { result := { success := false, synced := 0 }, db := emptyNoUserDb, calls := [] } ∧
    syncAll sortSel sortBillSel okApi (fun s => s) true "2024-01-03T00:00:00.000Z" emptyNoUserDb
        = { result := { success := false, categoriesSynced := 0, itemsSynced := 0
                      , billsSynced := 0, inventorySynced := 0 }
          , db := emptyNoUserDb, calls := [] } := by
  have h := no_user_data_fails_cycle sortSel sortBillSel okApi (fun s => s)
    "2024-01-03T00:00:00.000Z" emptyNoUserDb rfl
  exact ⟨h.1, h.2 validSel_sortSel rfl rfl rfl⟩

/-! ## Initial-sync bill deduplication (C9) -/

/-- C9: a downloaded bill is inserted only when no local bill carries its
invoice number: inserting into a store that already has the invoice number is
a no-op, downloading the same bill twice into a store without it yields
exactly one matching row, and a second download pass over the same bill
changes nothing. -/
theorem initial_sync_bill_dedup (now : String) (db : Db) (b : DownloadedBill) :
    (countInvoice db b.invoice_number ≠ 0 → insertBillIfNew now db b = db) ∧
    (countInvoice db b.invoice_number = 0 →
      countInvoice (initialSyncInsertBills now db [b, b]) b.invoice_number = 1) ∧
    initialSyncInsertBills now (initialSyncInsertBills now db [b]) [b]
      = initialSyncInsertBills now db [b] := by
  have hnonempty : countInvoice db b.invoice_number ≠ 0 →
      insertBillIfNew now db b = db := by
    intro h
    simp only [insertBillIfNew]
    have hne : (db.bills.filter
        (fun r => r.invoice_number == some b.invoice_number)).isEmpty = false := by
      cases hh : db.bills.filter (fun r => r.invoice_number == some b.invoice_number)
      · exact absurd (by simp [countInvoice, hh]) h
      · rfl
    simp [hne]
  have hinsert : countInvoice db b.invoice_number = 0 →
      insertBillIfNew now db b
        = { db with bills := db.bills ++ [downloadedBillRow b now] } := by
    intro h
    have hnil : db.bills.filter (fun r => r.invoice_number == some b.invoice_number) = [] :=
      List.length_eq_zero.mp h
    simp [insertBillIfNew, hnil]
  refine ⟨hnonempty, ?_, ?_⟩
  · intro h
    have hnil : db.bills.filter (fun r => r.invoice_number == some b.invoice_number) = [] :=
      List.length_eq_zero.mp h
    simp only [initialSyncInsertBills, List.foldl_cons, List.foldl_nil]
    rw [hinsert h]
    have h2 : insertBillIfNew now
        { db with bills := db.bills ++ [downloadedBillRow b now] } b
        = { db with bills := db.bills ++ [downloadedBillRow b now] } := by
      simp [insertBillIfNew, List.filter_append, hnil, downloadedBillRow]
    rw [h2]
    simp [countInvoice, List.filter_append, hnil, downloadedBillRow]
  · by_cases h : countInvoice db b.invoice_number = 0
    · simp only [initialSyncInsertBills, List.foldl_cons, List.foldl_nil]
      rw [hinsert h]
      simp [insertBillIfNew, List.filter_append,
        List.length_eq_zero.mp h, downloadedBillRow]
    · simp only [initialSyncInsertBills, List.foldl_cons, List.foldl_nil]
      rw [hnonempty h, hnonempty h]

/-- A downloaded bill used by concrete evaluations. -/
def dlBill : DownloadedBill :=
  { id := "sb1", invoice_number := "INV-9", bill_number := none
  , billing_mode := none, restaurant_name := none, address := none
  , gstin := none, fssai_license := none, bill_date := none
  , customer_name := none, customer_phone := none, items := "[]"
  , subtotal := 10, discount_amount := none, discount_percentage := none
  , cgst := none, sgst := none, igst := none, total_tax := none, total := 10
  , payment_mode := none, payment_reference := none, amount_paid := none
  , change_amount := none, device_id := none, vendor_id := none
  , timestamp := "2024-01-01T00:00:00.000Z" }

/-- Witness for C9: downloading the same bill twice into an empty store
leaves exactly one row with its invoice number. -/
theorem initial_sync_bill_dedup_witness :
    countInvoice (initialSyncInsertBills "2024-01-03T00:00:00.000Z" emptyNoUserDb
        [dlBill, dlBill]) dlBill.invoice_number = 1 :=
  (initial_sync_bill_dedup "2024-01-03T00:00:00.000Z" emptyNoUserDb dlBill).2.1 (by decide)

end TrenzPos
